import Mathlib

/-!
# Subscription service (Fedasov/Effective-Mobile): month-granularity dates, the
subscription store and the operations on it

The development embeds, in order:

* the parts of the Go standard library the service relies on (`time.Date`, the
  calendar accessors of `time.Time`, `time.Parse` for the layout `"01-2006"`,
  `strconv.Atoi`), transcribed from the library sources with machine integers
  written as `Int`/`Nat` with explicit wrap-around;
* the store behind `database/sql`: the table as a list of rows and the meaning
  of the six statements the repository sends;
* `internal/model`, `internal/repository`, `internal/service`, `internal/handler`.

The receivers `r.db`, `s.repo` and `h.service` are the store `db`, passed in
and, by the operations that write, returned. Go's `(value, error)` results are
`Except`; a bare `error` result is an `Option`. Calls of `log.Printf` write to
the process log only and are left out.
-/

namespace EffectiveMobile

/-! ## Go machine integers -/

/-- Conversion to `uint64`: the value modulo `2^64`. -/
def u64 (x : Int) : Int := x % 18446744073709551616

/-- Conversion to `int64`: two's complement reading of the low 64 bits. -/
def i64 (x : Int) : Int := (x + 9223372036854775808) % 18446744073709551616 - 9223372036854775808

/-- Conversion to `uint32`. -/
def u32 (x : Int) : Int := x % 4294967296

/-- Conversion to `int32`. -/
def i32 (x : Int) : Int := (x + 2147483648) % 4294967296 - 2147483648

/-- A Go `string`: a sequence of bytes. -/
abbrev GoString := List Nat

/-- UTF-8 encoding of one character. -/
def utf8Bytes (c : Char) : List Nat :=
  let n := c.toNat
  if n < 128 then [n]
  else if n < 2048 then [192 + n / 64, 128 + n % 64]
  else if n < 65536 then [224 + n / 4096, 128 + n / 64 % 64, 128 + n % 64]
  else [240 + n / 262144, 128 + n / 4096 % 64, 128 + n / 64 % 64, 128 + n % 64]

/-- The Go string written as the literal `s`. -/
def str (s : String) : GoString := s.toList.flatMap utf8Bytes

/-! ## Package `time` of the Go standard library

`time.Date`, the calendar accessors and `time.Parse`, as the service uses them. -/

namespace time

/-- A `*time.Location`, restricted to zones with one fixed offset (seconds east of UTC). -/
structure Location where
  name : String
  offset : Int
  deriving DecidableEq, Repr

/-- The location `time.UTC`. -/
def UTC : Location := ⟨"UTC", 0⟩

/-- A `time.Time` without monotonic reading: seconds since the Unix epoch, the
nanosecond within the second, and the location used for presentation. -/
structure Time where
  unix : Int
  nsec : Int
  loc : Location
  deriving DecidableEq, Repr

def secondsPerMinute : Int := 60
def secondsPerHour : Int := 60 * 60
def secondsPerDay : Int := 24 * 60 * 60
def daysPer400Years : Int := 365 * 400 + 97
def daysPer100Years : Int := 365 * 100 + 24
def daysPer4Years : Int := 365 * 4 + 1

def absoluteZeroYear : Int := -292277022399
def internalYear : Int := 1
def absoluteToInternal : Int := -9223371966579724800
def internalToAbsolute : Int := 9223371966579724800
def unixToInternal : Int := (1969 * 365 + 1969 / 4 - 1969 / 100 + 1969 / 400) * 86400
def internalToUnix : Int := -((1969 * 365 + 1969 / 4 - 1969 / 100 + 1969 / 400) * 86400)

/-- The table `daysBefore`: `daysBefore[m]` counts the days of a non-leap year
before month `m+1`. -/
def daysBefore : List Int :=
  [0,
   31,
   31 + 28,
   31 + 28 + 31,
   31 + 28 + 31 + 30,
   31 + 28 + 31 + 30 + 31,
   31 + 28 + 31 + 30 + 31 + 30,
   31 + 28 + 31 + 30 + 31 + 30 + 31,
   31 + 28 + 31 + 30 + 31 + 30 + 31 + 31,
   31 + 28 + 31 + 30 + 31 + 30 + 31 + 31 + 30,
   31 + 28 + 31 + 30 + 31 + 30 + 31 + 31 + 30 + 31,
   31 + 28 + 31 + 30 + 31 + 30 + 31 + 31 + 30 + 31 + 30,
   31 + 28 + 31 + 30 + 31 + 30 + 31 + 31 + 30 + 31 + 30 + 31]

/-- Indexing `daysBefore[i]`. -/
def daysBeforeAt (i : Int) : Int := daysBefore.getD i.toNat 0

/-- Go `isLeap`. -/
def isLeap (year : Int) : Bool :=
  year % 4 == 0 && (year % 100 != 0 || year % 400 == 0)

/-- Go `norm`: brings `lo` into `[0, base)`, carrying into `hi`. -/
def norm (hi lo base : Int) : Int × Int :=
  let (hi, lo) :=
    if lo < 0 then
      let n := (-lo - 1) / base + 1
      (hi - n, lo + n * base)
    else (hi, lo)
  if lo ≥ base then
    let n := lo / base
    (hi + n, lo - n * base)
  else (hi, lo)

/-- Go `daysSinceEpoch`: days from the absolute epoch to the start of `year`
(`uint64` arithmetic). -/
def daysSinceEpoch (year : Int) : Int :=
  let y := u64 (year - absoluteZeroYear)
  -- Add in days from 400-year cycles.
  let n := y / 400
  let y := u64 (y - 400 * n)
  let d := u64 (daysPer400Years * n)
  -- Add in 100-year cycles.
  let n := y / 100
  let y := u64 (y - 100 * n)
  let d := u64 (d + daysPer100Years * n)
  -- Add in 4-year cycles.
  let n := y / 4
  let y := u64 (y - 4 * n)
  let d := u64 (d + daysPer4Years * n)
  -- Add in non-leap years.
  let n := y
  u64 (d + 365 * n)

/-- Go `time.Date`. -/
def Date (year month day hour min sec nsec : Int) (loc : Location) : Time :=
  -- Normalize month, overflowing into year.
  let m := month - 1
  let (year, m) := norm year m 12
  let month := m + 1
  -- Normalize nsec, sec, min, hour, overflowing into day.
  let (sec, nsec) := norm sec nsec 1000000000
  let (min, sec) := norm min sec 60
  let (hour, min) := norm hour min 60
  let (day, hour) := norm day hour 24
  -- Compute days since the absolute epoch.
  let d := daysSinceEpoch year
  -- Add in days before this month.
  let d := u64 (d + daysBeforeAt (month - 1))
  let d := if isLeap year && month ≥ 3 then u64 (d + 1) else d
  -- Add in days before today.
  let d := u64 (d + u64 (day - 1))
  -- Add in time elapsed today.
  let abs := u64 (d * secondsPerDay)
  let abs := u64 (abs + u64 (hour * secondsPerHour + min * secondsPerMinute + sec))
  let unix := i64 (i64 abs + (absoluteToInternal + internalToUnix))
  -- Adjust to UTC by the zone offset.
  let unix := if loc.offset ≠ 0 then i64 (unix - loc.offset) else unix
  ⟨unix, i32 nsec, loc⟩

/-- Go `Time.abs`: seconds since the absolute epoch, in the time's location. -/
def Time.abs (t : Time) : Int :=
  u64 (t.unix + t.loc.offset + (unixToInternal + internalToAbsolute))

/-- Go `absDate`: year, month, day and day-of-year of an absolute time. -/
def absDate (abs : Int) : Int × Int × Int × Int :=
  -- Split into time and day.
  let d := abs / secondsPerDay
  -- Account for 400 year cycles.
  let n := d / daysPer400Years
  let y := 400 * n
  let d := d - daysPer400Years * n
  -- Cut off 100-year cycles.
  let n := d / daysPer100Years
  let n := n - n / 4
  let y := y + 100 * n
  let d := d - daysPer100Years * n
  -- Cut off 4-year cycles.
  let n := d / daysPer4Years
  let y := y + 4 * n
  let d := d - daysPer4Years * n
  -- Cut off years within a 4-year cycle.
  let n := d / 365
  let n := n - n / 4
  let y := y + n
  let d := d - 365 * n
  let year := i64 (i64 y + absoluteZeroYear)
  let yday := d
  let day := yday
  if isLeap year && day == 31 + 29 - 1 then
    -- Leap day.
    (year, 2, 29, yday)
  else
    -- After leap day; pretend it wasn't there.
    let day := if isLeap year && day > 31 + 29 - 1 then day - 1 else day
    -- Estimate month on assumption that every month has 31 days.
    let month := day / 31
    let endDay := daysBeforeAt (month + 1)
    let (month, begin) :=
      if day ≥ endDay then (month + 1, endDay) else (month, daysBeforeAt month)
    (year, month + 1, day - begin + 1, yday)

def Time.Year (t : Time) : Int := (absDate t.abs).1
def Time.Month (t : Time) : Int := (absDate t.abs).2.1
def Time.Day (t : Time) : Int := (absDate t.abs).2.2.1
def Time.Hour (t : Time) : Int := t.abs % secondsPerDay / secondsPerHour
def Time.Minute (t : Time) : Int := t.abs % secondsPerHour / secondsPerMinute
def Time.Second (t : Time) : Int := t.abs % secondsPerMinute
def Time.Nanosecond (t : Time) : Int := t.nsec

/-- Go `daysIn`: the number of days of `month` in `year`. -/
def daysIn (m year : Int) : Int :=
  if m == 2 && isLeap year then 29
  else daysBeforeAt m - daysBeforeAt (m - 1)

/-- Go `time.ParseError`; `Message` is kept without the quoted value that the
library appends to it. -/
structure ParseError where
  Layout : String
  Value : GoString
  LayoutElem : String
  ValueElem : GoString
  Message : String
  deriving DecidableEq, Repr

/-- Go `isDigit`: whether `s[i]` exists and is a decimal digit. -/
def isDigit (s : GoString) (i : Nat) : Bool :=
  match s.get? i with
  | none => false
  | some c => 48 ≤ c && c ≤ 57

/-- Go `getnum`: a one- or two-digit number at the start of `s`; with `fixed`
exactly two digits are demanded. `none` stands for `errBad`. -/
def getnum (s : GoString) (fixed : Bool) : Option (Int × GoString) :=
  if !isDigit s 0 then none
  else if !isDigit s 1 then
    if fixed then none
    else some (((s.getD 0 0 : Nat) : Int) - 48, s.drop 1)
  else some ((((s.getD 0 0 : Nat) : Int) - 48) * 10 + (((s.getD 1 0 : Nat) : Int) - 48), s.drop 2)

/-- Go `cutspace`: drops leading spaces. -/
def cutspace (s : GoString) : GoString := s.dropWhile (fun c => c == 32)

/-- The loop of Go `skip`, with a bound on the number of iterations. -/
def skipLoop : Nat → GoString → GoString → Option GoString
  | 0, value, _ => some value
  | fuel + 1, value, pfx =>
    match pfx with
    | [] => some value
    | p :: ps =>
      if p = 32 then
        if value.length > 0 ∧ value.head? ≠ some 32 then none
        else skipLoop fuel (cutspace value) (cutspace (p :: ps))
      else
        match value with
        | [] => none
        | v :: vs => if v ≠ p then none else skipLoop fuel vs ps

/-- Go `skip`: removes the literal `pfx` from the front of `value` (a space in
`pfx` matches any run of spaces). Every iteration shortens `pfx`, so its
length bounds the loop. `none` stands for `errBad`. -/
def skip (value pfx : GoString) : Option GoString := skipLoop pfx.length value pfx

/-- Go `leadingInt`: the leading decimal digits of `s` as a number and the rest
of `s`; `none` on overflow of 63 bits. `x` is the value read so far. -/
def leadingInt (x : Nat) : GoString → Option (Nat × GoString)
  | [] => some (x, [])
  | c :: cs =>
    if c < 48 ∨ c > 57 then some (x, c :: cs)
    else if x > 9223372036854775808 / 10 then none
    else
      let x := x * 10 + c - 48
      if x > 9223372036854775808 then none
      else leadingInt x cs

/-- Go `atoi` of package `time`: an optionally signed decimal number filling
all of `s`. `none` stands for `errAtoi`. -/
def atoi (s : GoString) : Option Int :=
  let signed := decide (s.length > 0) && (s.head? == some 45 || s.head? == some 43)
  let neg := signed && s.head? == some 45
  let s := if signed then s.drop 1 else s
  match leadingInt 0 s with
  | none => none
  | some (q, rem) =>
    if rem.length > 0 then none
    else some (if neg then -(q : Int) else (q : Int))

/-- Go `time.Parse(layout, value)` for the layout `"01-2006"`, the only layout
the service passes. The layout splits into the chunks `01` (`stdZeroMonth`),
the literal `-` followed by `2006` (`stdLongYear`), and the end of the layout;
the loop of `parse` is unrolled over them. -/
def Parse (value : GoString) : Except ParseError Time :=
  let layout := "01-2006"
  let avalue := value
  -- chunk "01": no literal text before it
  match skip value [] with
  | none => .error ⟨layout, avalue, "", value, ""⟩
  | some value =>
    -- stdZeroMonth
    match getnum value true with
    | none => .error ⟨layout, avalue, "01", value, ""⟩
    | some (month, value) =>
      if month ≤ 0 ∨ 12 < month then
        .error ⟨layout, avalue, "01", value, ": month out of range"⟩
      else
        -- chunk "2006": preceded by the literal "-"
        match skip value (str "-") with
        | none => .error ⟨layout, avalue, "-", value, ""⟩
        | some value =>
          -- stdLongYear
          if value.length < 4 ∨ !isDigit value 0 then
            .error ⟨layout, avalue, "2006", value, ""⟩
          else
            match atoi (value.take 4) with
            | none => .error ⟨layout, avalue, "2006", value, ""⟩
            | some year =>
              let value := value.drop 4
              -- end of the layout
              match skip value [] with
              | none => .error ⟨layout, avalue, "", value, ""⟩
              | some value =>
                if value.length ≠ 0 then
                  .error ⟨layout, avalue, "", value, ": extra text: "⟩
                else
                  -- no day in the layout
                  let day := 1
                  -- Validate the day of the month.
                  if day < 1 ∨ day > daysIn month year then
                    .error ⟨layout, avalue, "", value, ": day out of range"⟩
                  else
                    .ok (Date year month day 0 0 0 0 UTC)

end time

/-! ## Errors

Go `error` values, kept as the tree of calls that built them. -/

/-- A Go `error` as it arises in this program. `errorfErr format e` is
`fmt.Errorf(format, e)` and `errorfInt format n` is `fmt.Errorf(format, n)`. -/
inductive GoError where
  | parseError (e : time.ParseError)
  | sqlErrNoRows
  | driverError (msg : String)
  | syntaxError (fn : String) (input : GoString)
  | rangeError (fn : String) (input : GoString)
  | decodeError (msg : String)
  | errorfErr (format : String) (e : GoError)
  | errorfInt (format : String) (n : Int)
  deriving DecidableEq, Repr

/-! ## Package `strconv` -/

namespace strconv

/-- The decimal value of a digit string read left to right; `none` if a byte
is no digit. -/
def digitsValue (acc : Nat) : GoString → Option Nat
  | [] => some acc
  | c :: cs => if 48 ≤ c ∧ c ≤ 57 then digitsValue (acc * 10 + (c - 48)) cs else none

/-- Go `strconv.Atoi`: an optional sign and at least one decimal digit, the
value within the 64-bit `int`. -/
def Atoi (s : GoString) : Except GoError Int :=
  let signed := s.head? == some 43 || s.head? == some 45
  let neg := s.head? == some 45
  let digits := if signed then s.drop 1 else s
  if digits = [] then .error (.syntaxError "Atoi" s)
  else
    match digitsValue 0 digits with
    | none => .error (.syntaxError "Atoi" s)
    | some n =>
      let v : Int := if neg then -(n : Int) else (n : Int)
      if v < -9223372036854775808 ∨ v > 9223372036854775807 then
        .error (.rangeError "Atoi" s)
      else .ok v

end strconv

/-! ## `internal/model` -/

/-- A `uuid.UUID`: 128 bits, `uuid.Nil` being `0`. -/
abbrev UUID := Nat

namespace model

/-- The struct `model.Subscription`; `ID` holds a `uint32`, `Price` an `int32`. -/
structure Subscription where
  ID : Int
  ServiceName : GoString
  Price : Int
  UserID : UUID
  StartDate : time.Time
  EndDate : Option time.Time
  deriving DecidableEq, Repr

/-- The struct `model.SubscriptionCreateRequest`. Its `validate` tags are
annotations only: no statement of the program reads them. -/
structure SubscriptionCreateRequest where
  ServiceName : GoString
  Price : Int
  UserID : UUID
  StartDate : GoString
  EndDate : Option GoString
  deriving DecidableEq, Repr

/-- The struct `model.TotalCostRequest`. -/
structure TotalCostRequest where
  StartDate : GoString
  EndDate : GoString
  UserID : Option UUID
  ServiceName : Option GoString
  deriving DecidableEq, Repr

end model

/-! ## The store behind `database/sql` -/

namespace sql

/-- Modelled from the spec: the table `subscriptions` and the SQL engine that
serves it are not part of the sources (only the statements sent to them are).
The table is the list of its rows (columns id, service_name, price, user_id,
start_date, end_date); `nextID` is the identifier the store assigns to the
next inserted row; `fault`, when set, is the driver error with which every
statement fails (lost connection, rejected statement). -/
structure DB where
  rows : List model.Subscription
  nextID : Int
  fault : Option String
  deriving DecidableEq, Repr

/-- A value bound to a placeholder of a statement. -/
inductive Arg where
  | time (t : time.Time)
  | uuid (u : UUID)
  | text (s : GoString)
  deriving DecidableEq, Repr

/-- Comparison `a <= b` of two timestamps, as instants. -/
def timeLE (a b : time.Time) : Bool :=
  a.unix < b.unix || (a.unix == b.unix && a.nsec ≤ b.nsec)

/-- One conjunct of the `WHERE` clause of the total-cost statement; `k` is the
number of the placeholder `$k` it reads. -/
inductive Cond where
  | startDateLE (k : Nat)
  | endDateNullOrGE (k : Nat)
  | userIDEq (k : Nat)
  | serviceNameEq (k : Nat)
  deriving DecidableEq, Repr

/-- The number of the placeholder a conjunct reads. -/
def Cond.param : Cond → Nat
  | .startDateLE k => k
  | .endDateNullOrGE k => k
  | .userIDEq k => k
  | .serviceNameEq k => k

/-- The SQL text of a conjunct. -/
def Cond.text : Cond → String
  | .startDateLE k => "start_date <= $" ++ toString k
  | .endDateNullOrGE k => "(end_date IS NULL OR end_date >= $" ++ toString k ++ ")"
  | .userIDEq k => "user_id = $" ++ toString k
  | .serviceNameEq k => "service_name = $" ++ toString k

/-- The statement `SELECT COALESCE(SUM(price), 0) FROM subscriptions WHERE ...`
with its conjuncts, and the arguments bound to `$1, $2, ...` in order. -/
structure SumQuery where
  conds : List Cond
  args : List Arg
  deriving DecidableEq, Repr

/-- The SQL text of the statement: the head as the repository writes it (a
line break and indentation before `WHERE`), then the conjuncts joined by
`AND`. -/
def SumQuery.text (q : SumQuery) : String :=
  "SELECT COALESCE(SUM(price), 0) FROM subscriptions \n\t          WHERE " ++
    " AND ".intercalate (q.conds.map Cond.text)

/-- A statement as the repository hands it to `QueryRow`: the query text and
the argument slice. -/
structure Statement where
  query : String
  args : List Arg
  deriving DecidableEq, Repr

/-- The argument bound to `$k`. -/
def argAt (args : List Arg) (k : Nat) : Option Arg :=
  if k = 0 then none else args.get? (k - 1)

/-- Whether a row satisfies a conjunct; `none` when the placeholder is unbound
or bound to a value of the wrong type, which the engine rejects. -/
def Cond.holds (args : List Arg) (row : model.Subscription) : Cond → Option Bool
  | .startDateLE k =>
    match argAt args k with
    | some (.time t) => some (timeLE row.StartDate t)
    | _ => none
  | .endDateNullOrGE k =>
    match argAt args k with
    | some (.time t) =>
      some (match row.EndDate with
            | none => true
            | some e => timeLE t e)
    | _ => none
  | .userIDEq k =>
    match argAt args k with
    | some (.uuid u) => some (row.UserID == u)
    | _ => none
  | .serviceNameEq k =>
    match argAt args k with
    | some (.text s) => some (row.ServiceName == s)
    | _ => none

/-- Whether a row satisfies all conjuncts. -/
def whereHolds (args : List Arg) (row : model.Subscription) : List Cond → Option Bool
  | [] => some true
  | c :: cs =>
    match c.holds args row, whereHolds args row cs with
    | some a, some b => some (a && b)
    | _, _ => none

/-- The rows selected by a `WHERE` clause. -/
def selectWhere (args : List Arg) (conds : List Cond) :
    List model.Subscription → Option (List model.Subscription)
  | [] => some []
  | r :: rs =>
    match whereHolds args r conds, selectWhere args conds rs with
    | some keep, some rest => some (if keep then r :: rest else rest)
    | _, _ => none

/-- Sum of the column `price`. -/
def sumPrice (rows : List model.Subscription) : Int := (rows.map (fun r => r.Price)).sum

/-- The call `QueryRow(query, args...).Scan(&total)` for the total-cost statement with
`total` an `int32`: `COALESCE(SUM(price), 0)` over the selected rows. The engine
rejects a statement whose highest placeholder differs from the number of
arguments; the scan fails when the sum does not fit the destination. -/
def queryRowSum (db : DB) (q : SumQuery) : Except GoError Int :=
  match db.fault with
  | some msg => .error (.driverError msg)
  | none =>
    if q.args.length ≠ (q.conds.map Cond.param).foldl max 0 then
      .error (.driverError "wrong number of parameters")
    else
      match selectWhere q.args q.conds db.rows with
      | none => .error (.driverError "unbound or ill-typed parameter")
      | some sel =>
        let total := sumPrice sel
        if total < -2147483648 ∨ total > 2147483647 then
          .error (.driverError "converting driver.Value type int64 to a int32: value out of range")
        else .ok total

/-- The statement `INSERT INTO subscriptions (...) VALUES (...) RETURNING id`: appends the
row under the next identifier and returns that identifier. -/
def insertReturningID (db : DB) (sub : model.Subscription) : Except GoError Int × DB :=
  match db.fault with
  | some msg => (.error (.driverError msg), db)
  | none =>
    (.ok db.nextID,
     { db with rows := db.rows ++ [{ sub with ID := db.nextID }], nextID := db.nextID + 1 })

/-- The statement `SELECT ... FROM subscriptions WHERE id = $1`, read by `QueryRow(...).Scan`:
the first matching row, `sql.ErrNoRows` when there is none. -/
def queryRowByID (db : DB) (id : Int) : Except GoError model.Subscription :=
  match db.fault with
  | some msg => .error (.driverError msg)
  | none =>
    match db.rows.find? (fun r => r.ID == id) with
    | none => .error .sqlErrNoRows
    | some r => .ok r

/-- The statement `UPDATE subscriptions SET ... WHERE id = $6`: overwrites the five columns
of every row with that id; returns the number of rows affected. -/
def execUpdate (db : DB) (sub : model.Subscription) : Except GoError Int × DB :=
  match db.fault with
  | some msg => (.error (.driverError msg), db)
  | none =>
    (.ok ((db.rows.filter (fun r => r.ID == sub.ID)).length : Int),
     { db with rows := db.rows.map (fun r => if r.ID == sub.ID then sub else r) })

/-- The statement `DELETE FROM subscriptions WHERE id = $1`; returns the number of rows
affected. -/
def execDelete (db : DB) (id : Int) : Except GoError Int × DB :=
  match db.fault with
  | some msg => (.error (.driverError msg), db)
  | none =>
    (.ok ((db.rows.filter (fun r => r.ID == id)).length : Int),
     { db with rows := db.rows.filter (fun r => !(r.ID == id)) })

/-- Insertion of a row into a list ordered by id. -/
def insertByID (r : model.Subscription) : List model.Subscription → List model.Subscription
  | [] => [r]
  | x :: xs => if r.ID ≤ x.ID then r :: x :: xs else x :: insertByID r xs

/-- The statement `SELECT ... FROM subscriptions ORDER BY id LIMIT $1 OFFSET $2`; the engine
rejects a negative limit or offset. -/
def queryPage (db : DB) (limit offset : Int) : Except GoError (List model.Subscription) :=
  match db.fault with
  | some msg => .error (.driverError msg)
  | none =>
    if limit < 0 ∨ offset < 0 then .error (.driverError "LIMIT or OFFSET must not be negative")
    else .ok (((db.rows.foldr insertByID []).drop offset.toNat).take limit.toNat)

end sql

/-! ## Package `fmt` -/

namespace fmt

/-- Go `fmt.Sprintf(format, n)` for a format whose only verb is a final `%d`;
`before` is the format up to the verb. -/
def Sprintf (before : String) (n : Nat) : String := before ++ toString n

end fmt

/-! ## `internal/repository` -/

namespace repository

/-- Method `subscriptionRepository.Create`: inserts the row and scans the returned id
into `sub.ID`. Returns the error, the subscription as the caller sees it
afterwards, and the store. -/
def Create (db : sql.DB) (sub : model.Subscription) :
    Option GoError × model.Subscription × sql.DB :=
  match sql.insertReturningID db sub with
  | (.error err, db) => (some err, sub, db)
  | (.ok id, db) => (none, { sub with ID := id }, db)

/-- Method `subscriptionRepository.GetByID`. -/
def GetByID (db : sql.DB) (id : Int) : Except GoError model.Subscription :=
  match sql.queryRowByID db id with
  | .error err =>
    if err = .sqlErrNoRows then
      .error (.errorfInt "subscription with ID %d not found" id)
    else
      .error (.errorfErr "failed to get subscription: %v" err)
  | .ok sub => .ok sub

/-- Method `subscriptionRepository.Update`; `RowsAffected` itself does not fail. -/
def Update (db : sql.DB) (sub : model.Subscription) : Option GoError × sql.DB :=
  match sql.execUpdate db sub with
  | (.error err, db) => (some (.errorfErr "failed to update subscription: %v" err), db)
  | (.ok rowsAffected, db) =>
    if rowsAffected = 0 then
      (some (.errorfInt "subscription with ID %d not found" sub.ID), db)
    else (none, db)

/-- Method `subscriptionRepository.Delete`; `RowsAffected` itself does not fail. -/
def Delete (db : sql.DB) (id : Int) : Option GoError × sql.DB :=
  match sql.execDelete db id with
  | (.error err, db) => (some (.errorfErr "failed to delete subscription: %v" err), db)
  | (.ok rowsAffected, db) =>
    if rowsAffected = 0 then
      (some (.errorfInt "subscription with ID %d not found" id), db)
    else (none, db)

/-- Method `subscriptionRepository.List`. -/
def List (db : sql.DB) (limit offset : Int) : Except GoError (List model.Subscription) :=
  match sql.queryPage db limit offset with
  | .error err => .error (.errorfErr "failed to get subscriptions list: %v" err)
  | .ok subscriptions => .ok subscriptions

/-- The statement and arguments that `subscriptionRepository.CalculateTotalCost`
builds: the two period conjuncts on `$1` and `$2`, then one conjunct per
filter that is present, numbered by `paramIndex`. -/
def totalCostQuery (startDate endDate : time.Time) (userID : Option UUID)
    (serviceName : Option GoString) : sql.SumQuery :=
  let query := [sql.Cond.startDateLE 1, sql.Cond.endDateNullOrGE 2]
  let args := [sql.Arg.time endDate, sql.Arg.time startDate]
  let paramIndex := 3
  let (query, args, paramIndex) :=
    match userID with
    | some u => (query ++ [sql.Cond.userIDEq paramIndex], args ++ [sql.Arg.uuid u], paramIndex + 1)
    | none => (query, args, paramIndex)
  let (query, args) :=
    match serviceName with
    | some n => (query ++ [sql.Cond.serviceNameEq paramIndex], args ++ [sql.Arg.text n])
    | none => (query, args)
  ⟨query, args⟩

/-- The query text and the argument slice that
`subscriptionRepository.CalculateTotalCost` builds, as strings: the raw string
literal of the source, extended by `fmt.Sprintf` once per filter that is
present, and `args` extended alongside. -/
def totalCostStatement (startDate endDate : time.Time) (userID : Option UUID)
    (serviceName : Option GoString) : sql.Statement :=
  let query := "SELECT COALESCE(SUM(price), 0) FROM subscriptions \n\t          " ++
    "WHERE start_date <= $1 AND (end_date IS NULL OR end_date >= $2)"
  let args := [sql.Arg.time endDate, sql.Arg.time startDate]
  let paramIndex := 3
  let (query, args, paramIndex) :=
    match userID with
    | some u =>
      (query ++ fmt.Sprintf " AND user_id = $" paramIndex, args ++ [sql.Arg.uuid u],
        paramIndex + 1)
    | none => (query, args, paramIndex)
  let (query, args) :=
    match serviceName with
    | some n =>
      (query ++ fmt.Sprintf " AND service_name = $" paramIndex, args ++ [sql.Arg.text n])
    | none => (query, args)
  ⟨query, args⟩

/-- Method `subscriptionRepository.CalculateTotalCost`. -/
def CalculateTotalCost (db : sql.DB) (startDate endDate : time.Time) (userID : Option UUID)
    (serviceName : Option GoString) : Except GoError Int :=
  match sql.queryRowSum db (totalCostQuery startDate endDate userID serviceName) with
  | .error err => .error (.errorfErr "failed to calculate total cost: %v" err)
  | .ok total => .ok total

end repository

/-! ## `internal/service` -/

namespace service

/-- Function `parseMonthYear`: a string of the form "MM-YYYY" as a `time.Time`. -/
def parseMonthYear (monthYear : GoString) : Except GoError time.Time :=
  match time.Parse monthYear with
  | .error err => .error (.parseError err)
  | .ok date => .ok (time.Date date.Year date.Month 1 0 0 0 0 time.UTC)

/-- Method `subscriptionService.Create`. -/
def Create (db : sql.DB) (req : model.SubscriptionCreateRequest) :
    Except GoError model.Subscription × sql.DB :=
  match parseMonthYear req.StartDate with
  | .error err => (.error (.errorfErr "invalid start date: %v" err), db)
  | .ok startDate =>
    let parsedEnd : Except GoError (Option time.Time) :=
      match req.EndDate with
      | none => .ok none
      | some e =>
        match parseMonthYear e with
        | .error err => .error (.errorfErr "invalid end date: %v" err)
        | .ok parsedEndDate => .ok (some parsedEndDate)
    match parsedEnd with
    | .error err => (.error err, db)
    | .ok endDate =>
      let subscription : model.Subscription :=
        { ID := 0
          ServiceName := req.ServiceName
          Price := req.Price
          UserID := req.UserID
          StartDate := startDate
          EndDate := endDate }
      match repository.Create db subscription with
      | (some err, _, db) => (.error (.errorfErr "failed to create subscription: %v" err), db)
      | (none, subscription, db) => (.ok subscription, db)

/-- Method `subscriptionService.GetByID`. -/
def GetByID (db : sql.DB) (id : Int) : Except GoError model.Subscription :=
  match repository.GetByID db id with
  | .error err => .error (.errorfErr "failed to get subscription: %v" err)
  | .ok subscription => .ok subscription

/-- Method `subscriptionService.Update`. -/
def Update (db : sql.DB) (id : Int) (req : model.SubscriptionCreateRequest) :
    Except GoError model.Subscription × sql.DB :=
  match repository.GetByID db id with
  | .error err => (.error (.errorfErr "subscription not found: %v" err), db)
  | .ok existing =>
    match parseMonthYear req.StartDate with
    | .error err => (.error (.errorfErr "invalid start date: %v" err), db)
    | .ok startDate =>
      let parsedEnd : Except GoError (Option time.Time) :=
        match req.EndDate with
        | none => .ok none
        | some e =>
          match parseMonthYear e with
          | .error err => .error (.errorfErr "invalid end date: %v" err)
          | .ok parsedEndDate => .ok (some parsedEndDate)
      match parsedEnd with
      | .error err => (.error err, db)
      | .ok endDate =>
        let existing : model.Subscription :=
          { existing with
            ServiceName := req.ServiceName
            Price := req.Price
            UserID := req.UserID
            StartDate := startDate
            EndDate := endDate }
        match repository.Update db existing with
        | (some err, db) => (.error (.errorfErr "failed to update subscription: %v" err), db)
        | (none, db) => (.ok existing, db)

/-- Method `subscriptionService.Delete`. -/
def Delete (db : sql.DB) (id : Int) : Option GoError × sql.DB :=
  match repository.Delete db id with
  | (some err, db) => (some (.errorfErr "failed to delete subscription: %v" err), db)
  | (none, db) => (none, db)

/-- Method `subscriptionService.List`. -/
def List (db : sql.DB) (limit offset : Int) : Except GoError (List model.Subscription) :=
  match repository.List db limit offset with
  | .error err => .error (.errorfErr "failed to get subscriptions list: %v" err)
  | .ok subscriptions => .ok subscriptions

/-- Method `subscriptionService.CalculateTotalCost`. -/
def CalculateTotalCost (db : sql.DB) (req : model.TotalCostRequest) : Except GoError Int :=
  match parseMonthYear req.StartDate with
  | .error err => .error (.errorfErr "invalid start period: %v" err)
  | .ok startPeriod =>
    match parseMonthYear req.EndDate with
    | .error err => .error (.errorfErr "invalid end period: %v" err)
    | .ok endPeriod =>
      let endPeriod := time.Date endPeriod.Year (endPeriod.Month + 1) 0 0 0 0 0 time.UTC
      match repository.CalculateTotalCost db startPeriod endPeriod req.UserID req.ServiceName with
      | .error err => .error (.errorfErr "failed to calculate total cost: %v" err)
      | .ok total => .ok total

end service

/-! ## `internal/handler` -/

namespace handler

/-- What a handler writes as the response body. -/
inductive Body where
  | errorText (e : GoError)
  | plainText (s : String)
  | subscription (sub : model.Subscription)
  | subscriptions (subs : List model.Subscription)
  | totalCost (total : Int)
  | empty
  deriving DecidableEq, Repr

/-- The response of a handler: status code and body. -/
structure Response where
  status : Nat
  body : Body
  deriving DecidableEq, Repr

def StatusOK : Nat := 200
def StatusCreated : Nat := 201
def StatusNoContent : Nat := 204
def StatusBadRequest : Nat := 400
def StatusNotFound : Nat := 404
def StatusInternalServerError : Nat := 500

/-- Method `SubscriptionHandler.Create`; `decoded` is the outcome of decoding the
request body as JSON. -/
def Create (db : sql.DB) (decoded : Except GoError model.SubscriptionCreateRequest) :
    Response × sql.DB :=
  match decoded with
  | .error err => (⟨StatusBadRequest, .errorText err⟩, db)
  | .ok req =>
    match service.Create db req with
    | (.error err, db) => (⟨StatusBadRequest, .errorText err⟩, db)
    | (.ok subscription, db) => (⟨StatusCreated, .subscription subscription⟩, db)

/-- Method `SubscriptionHandler.GetByID`; `idVar` is the path variable `id`. -/
def GetByID (db : sql.DB) (idVar : GoString) : Response :=
  match strconv.Atoi idVar with
  | .error _ => ⟨StatusBadRequest, .plainText "Invalid ID"⟩
  | .ok id =>
    match service.GetByID db (u32 id) with
    | .error err => ⟨StatusNotFound, .errorText err⟩
    | .ok subscription => ⟨StatusOK, .subscription subscription⟩

/-- Method `SubscriptionHandler.Update`. -/
def Update (db : sql.DB) (idVar : GoString)
    (decoded : Except GoError model.SubscriptionCreateRequest) : Response × sql.DB :=
  match strconv.Atoi idVar with
  | .error _ => (⟨StatusBadRequest, .plainText "Invalid ID"⟩, db)
  | .ok id =>
    match decoded with
    | .error err => (⟨StatusBadRequest, .errorText err⟩, db)
    | .ok req =>
      match service.Update db (u32 id) req with
      | (.error err, db) => (⟨StatusBadRequest, .errorText err⟩, db)
      | (.ok subscription, db) => (⟨StatusOK, .subscription subscription⟩, db)

/-- Method `SubscriptionHandler.Delete`. -/
def Delete (db : sql.DB) (idVar : GoString) : Response × sql.DB :=
  match strconv.Atoi idVar with
  | .error _ => (⟨StatusBadRequest, .plainText "Invalid ID"⟩, db)
  | .ok id =>
    match service.Delete db (u32 id) with
    | (some err, db) => (⟨StatusNotFound, .errorText err⟩, db)
    | (none, db) => (⟨StatusNoContent, .empty⟩, db)

/-- The limit and offset that `SubscriptionHandler.List` passes to the
service, from the query parameters `limit` and `offset` (empty when absent). -/
def listParams (limitStr offsetStr : GoString) : Int × Int :=
  let limit := 10
  let offset := 0
  let limit :=
    if limitStr ≠ [] then
      match strconv.Atoi limitStr with
      | .ok l => l
      | .error _ => limit
    else limit
  let offset :=
    if offsetStr ≠ [] then
      match strconv.Atoi offsetStr with
      | .ok o => o
      | .error _ => offset
    else offset
  (i32 limit, i32 offset)

/-- Method `SubscriptionHandler.List`. -/
def List (db : sql.DB) (limitStr offsetStr : GoString) : Response :=
  let (limit, offset) := listParams limitStr offsetStr
  match service.List db limit offset with
  | .error err => ⟨StatusInternalServerError, .errorText err⟩
  | .ok subscriptions => ⟨StatusOK, .subscriptions subscriptions⟩

/-- Method `SubscriptionHandler.GetTotalCost`. -/
def GetTotalCost (db : sql.DB) (decoded : Except GoError model.TotalCostRequest) : Response :=
  match decoded with
  | .error err => ⟨StatusBadRequest, .errorText err⟩
  | .ok req =>
    match service.CalculateTotalCost db req with
    | .error err => ⟨StatusBadRequest, .errorText err⟩
    | .ok total => ⟨StatusOK, .totalCost total⟩

end handler

/-! ## Vocabulary of the specification -/

namespace Spec

/-- A decimal digit. -/
def digit (c : Nat) : Bool := 48 ≤ c && c ≤ 57

/-- The number written by the two digits `a b`. -/
def num2 (a b : Nat) : Int := ((a : Int) - 48) * 10 + ((b : Int) - 48)

/-- The number written by the four digits `a b c d`. -/
def num4 (a b c d : Nat) : Int :=
  ((a : Int) - 48) * 1000 + ((b : Int) - 48) * 100 + ((c : Int) - 48) * 10 + ((d : Int) - 48)

/-- The strings of the form MM-YYYY: exactly two decimal digits, a hyphen and
four decimal digits, the two-digit month in 1..12. -/
def isMonthYear : GoString → Bool
  | [a, b, h, c, d, e, f] =>
    digit a && digit b && h == 45 && digit c && digit d && digit e && digit f &&
      decide (1 ≤ num2 a b) && decide (num2 a b ≤ 12)
  | _ => false

/-- The month MM of a string MM-YYYY. -/
def monthOf : GoString → Int
  | a :: b :: _ => num2 a b
  | _ => 0

/-- The year YYYY of a string MM-YYYY. -/
def yearOf : GoString → Int
  | _ :: _ :: _ :: c :: d :: e :: f :: _ => num4 c d e f
  | _ => 0

/-- Midnight UTC of the first day of the month MM-YYYY. -/
def firstDay (s : GoString) : time.Time :=
  time.Date (yearOf s) (monthOf s) 1 0 0 0 0 time.UTC

/-- Midnight UTC of the last calendar day of the month MM-YYYY. -/
def lastDay (s : GoString) : time.Time :=
  time.Date (yearOf s) (monthOf s) (time.daysIn (monthOf s) (yearOf s)) 0 0 0 0 time.UTC

/-- The overlap test of the specification: `start_date <= end-of-period` and
(`end_date` absent or `end_date >= start-of-period`). -/
def overlaps (startOfPeriod endOfPeriod : time.Time) (sub : model.Subscription) : Bool :=
  sql.timeLE sub.StartDate endOfPeriod &&
    (match sub.EndDate with
     | none => true
     | some e => sql.timeLE startOfPeriod e)

/-- A subscription equals the user filter when one is supplied. -/
def matchesUser (userID : Option UUID) (sub : model.Subscription) : Bool :=
  match userID with
  | none => true
  | some u => sub.UserID == u

/-- A subscription equals the service-name filter when one is supplied. -/
def matchesService (serviceName : Option GoString) (sub : model.Subscription) : Bool :=
  match serviceName with
  | none => true
  | some n => sub.ServiceName == n

/-- A subscription contributes to the total of a request: it overlaps the
period and passes both filters. -/
def contributes (req : model.TotalCostRequest) (sub : model.Subscription) : Bool :=
  overlaps (firstDay req.StartDate) (lastDay req.EndDate) sub &&
    matchesUser req.UserID sub && matchesService req.ServiceName sub

end Spec

/-! ## Auxiliary: the day of the year -/

namespace time

/-- The day of the year (from 0) of the day `d` of month `m` in year `y`. -/
def ydayOf (y m d : Int) : Int :=
  daysBeforeAt (m - 1) + (if isLeap y && m ≥ 3 then 1 else 0) + (d - 1)

end time

/-! ## Calendar arithmetic: `time.Date` and `absDate` are inverse on civil dates -/

theorem u64_of_range {x : Int} (h0 : 0 ≤ x) (h1 : x < 18446744073709551616) : u64 x = x := by
  unfold u64; omega

namespace time

theorem daysSinceEpoch_eq (y : Int) (h0 : -292277022399 ≤ y) (h1 : y ≤ 1000000) :
    daysSinceEpoch y = 146097 * ((y + 292277022399) / 400)
      + 36524 * ((y + 292277022399) % 400 / 100)
      + 1461 * ((y + 292277022399) % 100 / 4)
      + 365 * ((y + 292277022399) % 4) := by
  simp only [daysSinceEpoch, absoluteZeroYear, daysPer400Years, daysPer100Years, daysPer4Years]
  have e1 : u64 (y - -292277022399) = y + 292277022399 := by unfold u64; omega
  rw [e1]
  generalize hY : y + 292277022399 = Y at *
  have hY0 : 0 ≤ Y := by omega
  have hY1 : Y ≤ 292278022399 := by omega
  have e2 : u64 (Y - 400 * (Y / 400)) = Y % 400 := by unfold u64; omega
  rw [e2]
  have e3 : u64 ((365 * 400 + 97) * (Y / 400)) = 146097 * (Y / 400) := by unfold u64; omega
  rw [e3]
  have e4 : u64 (Y % 400 - 100 * (Y % 400 / 100)) = Y % 100 := by unfold u64; omega
  rw [e4]
  have e5 : u64 (146097 * (Y / 400) + (365 * 100 + 24) * (Y % 400 / 100))
      = 146097 * (Y / 400) + 36524 * (Y % 400 / 100) := by unfold u64; omega
  rw [e5]
  have e6 : u64 (Y % 100 - 4 * (Y % 100 / 4)) = Y % 4 := by unfold u64; omega
  rw [e6]
  have e7 : u64 (146097 * (Y / 400) + 36524 * (Y % 400 / 100) + (365 * 4 + 1) * (Y % 100 / 4))
      = 146097 * (Y / 400) + 36524 * (Y % 400 / 100) + 1461 * (Y % 100 / 4) := by unfold u64; omega
  rw [e7]
  unfold u64; omega

theorem isLeap_iff (y : Int) : isLeap y = true ↔ (y % 4 = 0 ∧ (y % 100 ≠ 0 ∨ y % 400 = 0)) := by
  simp [isLeap]

/-- year and day-of-year split -/
theorem absDate_split (y yd s : Int) (h0 : -292277022399 ≤ y) (h1 : y ≤ 1000000)
    (hyd0 : 0 ≤ yd) (hyd1 : yd < 365 + (if isLeap y then 1 else 0))
    (hs0 : 0 ≤ s) (hs1 : s < 86400) :
    let abs := (daysSinceEpoch y + yd) * 86400 + s
    let d := abs / secondsPerDay
    let n := d / daysPer400Years
    let y1 := 400 * n
    let d := d - daysPer400Years * n
    let n := d / daysPer100Years
    let n := n - n / 4
    let y2 := y1 + 100 * n
    let d := d - daysPer100Years * n
    let n := d / daysPer4Years
    let y3 := y2 + 4 * n
    let d := d - daysPer4Years * n
    let n := d / 365
    let n := n - n / 4
    let y4 := y3 + n
    let d := d - 365 * n
    i64 (i64 y4 + absoluteZeroYear) = y ∧ d = yd := by
  intro abs d
  have hd : d = daysSinceEpoch y + yd := by
    simp only [d, abs, secondsPerDay]; omega
  clear_value d
  subst hd
  rw [daysSinceEpoch_eq y h0 h1]
  have hl := isLeap_iff y
  simp only [daysPer400Years, daysPer100Years, daysPer4Years, absoluteZeroYear, i64]
  generalize hY : y + 292277022399 = Y at *
  have hY0 : 0 ≤ Y := by omega
  have hY1 : Y ≤ 292278022399 := by omega
  obtain ⟨a, ha⟩ : ∃ a, a = Y / 400 := ⟨_, rfl⟩
  obtain ⟨b, hb⟩ : ∃ b, b = Y % 400 / 100 := ⟨_, rfl⟩
  obtain ⟨c, hc⟩ : ∃ c, c = Y % 100 / 4 := ⟨_, rfl⟩
  obtain ⟨e, he⟩ : ∃ e, e = Y % 4 := ⟨_, rfl⟩
  rw [← ha, ← hb, ← hc, ← he]
  have hYe : Y = 400 * a + 100 * b + 4 * c + e := by omega
  have hb' : 0 ≤ b ∧ b < 4 := by omega
  have hc' : 0 ≤ c ∧ c < 25 := by omega
  have he' : 0 ≤ e ∧ e < 4 := by omega
  have ha' : 0 ≤ a ∧ a ≤ 730695056 := by omega
  have hyd2 : yd ≤ 365 := by
    split at hyd1 <;> omega
  have hleap : yd < 365 ∨ (e = 3 ∧ (c ≠ 24 ∨ b = 3)) := by
    by_cases h : isLeap y = true
    · right
      have := hl.1 h
      omega
    · left
      simp only [h] at hyd1
      simpa using hyd1
  clear hl hyd1 ha hb hc he
  obtain ⟨r3, hr3⟩ : ∃ r, r = 365 * e + yd := ⟨_, rfl⟩
  obtain ⟨r2, hr2⟩ : ∃ r, r = 1461 * c + r3 := ⟨_, rfl⟩
  obtain ⟨r1, hr1⟩ : ∃ r, r = 36524 * b + r2 := ⟨_, rfl⟩
  have b3 : 0 ≤ r3 ∧ r3 ≤ 1460 := by omega
  have b2 : 0 ≤ r2 ∧ r2 ≤ 36524 ∧ (r2 = 36524 → b = 3) := by omega
  have b1 : 0 ≤ r1 ∧ r1 ≤ 146096 := by omega
  have x1 : 146097 * a + 36524 * b + 1461 * c + 365 * e + yd = 146097 * a + r1 := by omega
  rw [x1]
  have n1 : (146097 * a + r1) / (365 * 400 + 97) = a := by omega
  rw [n1]
  have d1 : 146097 * a + r1 - (365 * 400 + 97) * a = r1 := by omega
  rw [d1]
  have n2 : r1 / (365 * 100 + 24) - r1 / (365 * 100 + 24) / 4 = b := by omega
  rw [n2]
  have d2 : r1 - (365 * 100 + 24) * b = r2 := by omega
  rw [d2]
  have n3 : r2 / (365 * 4 + 1) = c := by omega
  rw [n3]
  have d3 : r2 - (365 * 4 + 1) * c = r3 := by omega
  rw [d3]
  have n4 : r3 / 365 - r3 / 365 / 4 = e := by omega
  rw [n4]
  constructor <;> omega

theorem daysBeforeAt_vals :
    daysBeforeAt 0 = 0 ∧ daysBeforeAt 1 = 31 ∧ daysBeforeAt 2 = 59 ∧ daysBeforeAt 3 = 90 ∧
    daysBeforeAt 4 = 120 ∧ daysBeforeAt 5 = 151 ∧ daysBeforeAt 6 = 181 ∧ daysBeforeAt 7 = 212 ∧
    daysBeforeAt 8 = 243 ∧ daysBeforeAt 9 = 273 ∧ daysBeforeAt 10 = 304 ∧
    daysBeforeAt 11 = 334 ∧ daysBeforeAt 12 = 365 := by
  refine ⟨?_, ?_, ?_, ?_, ?_, ?_, ?_, ?_, ?_, ?_, ?_, ?_, ?_⟩ <;> rfl

theorem month_estimate (day m d : Int) (hm0 : 1 ≤ m) (hm1 : m ≤ 12)
    (hday : day = daysBeforeAt (m - 1) + (d - 1)) (hd0 : 1 ≤ d)
    (hd1 : d ≤ daysBeforeAt m - daysBeforeAt (m - 1)) :
    (if day ≥ daysBeforeAt (day / 31 + 1) then (day / 31 + 1, daysBeforeAt (day / 31 + 1))
      else (day / 31, daysBeforeAt (day / 31))) = (m - 1, daysBeforeAt (m - 1)) := by
  obtain ⟨v0, v1, v2, v3, v4, v5, v6, v7, v8, v9, v10, v11, v12⟩ := daysBeforeAt_vals
  have hq : day / 31 = m - 1 ∨ (day / 31 = m - 2 ∧ 2 ≤ m) := by
    interval_cases m <;> simp only [Int.reduceSub, v0, v1, v2, v3, v4, v5, v6, v7, v8, v9, v10, v11, v12] at hday hd1 <;> omega
  rcases hq with hq | ⟨hq, h2⟩
  · rw [hq]
    interval_cases m <;>
      simp only [Int.reduceSub, Int.reduceAdd, v0, v1, v2, v3, v4, v5, v6, v7, v8, v9, v10, v11, v12] at hday hd1 ⊢ <;>
      rw [if_neg (by omega)]
  · rw [hq]
    have e : m - 2 + 1 = m - 1 := by omega
    rw [e]
    rw [if_pos]
    interval_cases m <;>
      simp only [Int.reduceSub, Int.reduceAdd, v0, v1, v2, v3, v4, v5, v6, v7, v8, v9, v10, v11, v12] at hday hd1 hq ⊢ <;>
      omega

theorem ydayOf_bounds (y m d : Int) (hm0 : 1 ≤ m) (hm1 : m ≤ 12) (hd0 : 1 ≤ d)
    (hd1 : d ≤ daysIn m y) :
    0 ≤ ydayOf y m d ∧ ydayOf y m d < 365 + (if isLeap y then 1 else 0) := by
  unfold ydayOf daysIn at *
  interval_cases m <;> cases hL : isLeap y <;>
    simp [daysBeforeAt, daysBefore, hL] at hd1 ⊢ <;> omega

theorem absDate_civil (y m d s : Int) (h0 : -292277022399 ≤ y) (h1 : y ≤ 1000000)
    (hm0 : 1 ≤ m) (hm1 : m ≤ 12) (hd0 : 1 ≤ d) (hd1 : d ≤ daysIn m y)
    (hs0 : 0 ≤ s) (hs1 : s < 86400) :
    absDate ((daysSinceEpoch y + ydayOf y m d) * 86400 + s) = (y, m, d, ydayOf y m d) := by
  have hyd := ydayOf_bounds y m d hm0 hm1 hd0 hd1
  have key := absDate_split y (ydayOf y m d) s h0 h1 hyd.1 hyd.2 hs0 hs1
  simp only [] at key
  obtain ⟨k1, k2⟩ := key
  unfold absDate
  simp only []
  rw [k1, k2]
  clear k1 k2 hyd
  obtain ⟨v0, v1, v2, v3, v4, v5, v6, v7, v8, v9, v10, v11, v12⟩ := daysBeforeAt_vals
  cases hL : isLeap y
  · -- common year
    have hy : ydayOf y m d = daysBeforeAt (m - 1) + (d - 1) := by
      simp [ydayOf, hL]
    have hd1' : d ≤ daysBeforeAt m - daysBeforeAt (m - 1) := by
      simpa [daysIn, hL] using hd1
    have := month_estimate _ m d hm0 hm1 hy hd0 hd1'
    simp only [Bool.false_and, Bool.false_eq_true, if_false, this]
    simp only [Prod.mk.injEq, true_and]
    exact ⟨by omega, by omega, trivial⟩
  · -- leap year
    have hI : daysIn m y = if m = 2 then 29 else daysBeforeAt m - daysBeforeAt (m - 1) := by
      simp [daysIn, hL]
    rw [hI] at hd1
    by_cases hm3 : 3 ≤ m
    · have hy : ydayOf y m d = daysBeforeAt (m - 1) + 1 + (d - 1) := by
        simp [ydayOf, hL, hm3]
      rw [if_neg (by omega)] at hd1
      have hB : 59 ≤ daysBeforeAt (m - 1) := by
        interval_cases m <;>
          simp only [Int.reduceSub, v2, v3, v4, v5, v6, v7, v8, v9, v10, v11] <;> omega
      have hy' : ydayOf y m d - 1 = daysBeforeAt (m - 1) + (d - 1) := by omega
      have := month_estimate _ m d hm0 hm1 hy' hd0 hd1
      have hgt : ydayOf y m d > 31 + 29 - 1 := by omega
      have hne : ¬ ydayOf y m d = 31 + 29 - 1 := by omega
      simp only [Bool.true_and, beq_iff_eq, hne, if_false, decide_eq_true_eq, hgt, if_true, this]
      simp only [Prod.mk.injEq, true_and]
      exact ⟨by omega, by omega, trivial⟩
    · have hy : ydayOf y m d = daysBeforeAt (m - 1) + (d - 1) := by
        have : ¬ (m ≥ 3) := by omega
        simp [ydayOf, hL, this]
      by_cases h29 : m = 2 ∧ d = 29
      · obtain ⟨rfl, rfl⟩ := h29
        simp only [Int.reduceSub, v1] at hy
        simp [hy]
      · have hd1' : d ≤ daysBeforeAt m - daysBeforeAt (m - 1) := by
          interval_cases m <;>
            simp only [Int.reduceSub, v0, v1, v2] at hd1 ⊢ <;> simp at hd1 <;> omega
        have := month_estimate _ m d hm0 hm1 hy hd0 hd1'
        have hB : ydayOf y m d < 59 := by
          interval_cases m <;> simp only [Int.reduceSub, v0, v1, v2] at hy hd1' <;> omega
        have hgt : ¬ ydayOf y m d > 31 + 29 - 1 := by omega
        have hne : ¬ ydayOf y m d = 31 + 29 - 1 := by omega
        simp only [Bool.true_and, beq_iff_eq, hne, if_false, decide_eq_true_eq, hgt, this]
        simp only [Prod.mk.injEq, true_and]
        exact ⟨by omega, by omega, trivial⟩

theorem daysSinceEpoch_bounds (y : Int) (h0 : -292277022399 < y) (h1 : y ≤ 1000000) :
    365 ≤ daysSinceEpoch y ∧ daysSinceEpoch y ≤ 106752500000000 := by
  rw [daysSinceEpoch_eq y (by omega) h1]
  generalize hY : y + 292277022399 = Y at *
  obtain ⟨a, ha⟩ : ∃ a, a = Y / 400 := ⟨_, rfl⟩
  obtain ⟨b, hb⟩ : ∃ b, b = Y % 400 / 100 := ⟨_, rfl⟩
  obtain ⟨c, hc⟩ : ∃ c, c = Y % 100 / 4 := ⟨_, rfl⟩
  obtain ⟨e, he⟩ : ∃ e, e = Y % 4 := ⟨_, rfl⟩
  rw [← ha, ← hb, ← hc, ← he]
  have hYe : Y = 400 * a + 100 * b + 4 * c + e := by omega
  have hb' : 0 ≤ b ∧ b < 4 := by omega
  have hc' : 0 ≤ c ∧ c < 25 := by omega
  have he' : 0 ≤ e ∧ e < 4 := by omega
  have ha' : 0 ≤ a ∧ a ≤ 730695056 := by omega
  constructor <;> omega

theorem norm_id (hi lo base : Int) (h0 : 0 ≤ lo) (h1 : lo < base) : norm hi lo base = (hi, lo) := by
  unfold norm
  rw [if_neg (by omega)]
  simp only []
  rw [if_neg (by omega)]

theorem ydayOf_lower (y m d : Int) (hm0 : 1 ≤ m) (hm1 : m ≤ 12) (hd0 : 0 ≤ d) (hd1 : d ≤ 31) :
    -1 ≤ ydayOf y m d ∧ ydayOf y m d ≤ 365 := by
  obtain ⟨v0, v1, v2, v3, v4, v5, v6, v7, v8, v9, v10, v11, v12⟩ := daysBeforeAt_vals
  unfold ydayOf
  interval_cases m <;> simp only [Int.reduceSub, v0, v1, v2, v3, v4, v5, v6, v7, v8, v9, v10, v11] <;>
    split <;> omega

theorem Date_civil (y m d : Int) (h0 : -292277022399 < y) (h1 : y ≤ 1000000)
    (hm0 : 1 ≤ m) (hm1 : m ≤ 12) (hd0 : 0 ≤ d) (hd1 : d ≤ 31) :
    Date y m d 0 0 0 0 UTC
      = ⟨(daysSinceEpoch y + ydayOf y m d) * 86400 - 9223372028715321600, 0, UTC⟩ := by
  have hY := ydayOf_lower y m d hm0 hm1 hd0 hd1
  have hE := daysSinceEpoch_bounds y h0 h1
  have n1 := norm_id y (m - 1) 12 (by omega) (by omega)
  have n2 := norm_id 0 0 1000000000 (by omega) (by omega)
  have n3 := norm_id 0 0 60 (by omega) (by omega)
  have n4 := norm_id d 0 24 (by omega) (by omega)
  unfold Date
  simp only [n1, n2, n3, n4]
  have hB : 0 ≤ daysBeforeAt (m - 1) ∧ daysBeforeAt (m - 1) ≤ 334 := by
    obtain ⟨v0, v1, v2, v3, v4, v5, v6, v7, v8, v9, v10, v11, v12⟩ := daysBeforeAt_vals
    interval_cases m <;>
      simp only [Int.reduceSub, v0, v1, v2, v3, v4, v5, v6, v7, v8, v9, v10, v11] <;> omega
  unfold ydayOf at *
  have e : m - 1 + 1 = m := by omega
  rw [e]
  generalize daysBeforeAt (m - 1) = B at *
  generalize daysSinceEpoch y = E at *
  clear n1 n2 n3 n4
  have hoff : UTC.offset = 0 := rfl
  simp only [hoff, ne_eq, not_true_eq_false, if_false, secondsPerDay, secondsPerHour,
    secondsPerMinute, absoluteToInternal, internalToUnix]
  have hi : i32 0 = 0 := by unfold i32; omega
  rw [hi]
  congr 1
  have a1 : u64 (E + B) = E + B := u64_of_range (by omega) (by omega)
  rw [a1]
  have a2 : u64 (E + B + 1) = E + B + 1 := u64_of_range (by omega) (by omega)
  rw [a2]
  split
  · rename_i hl
    rw [if_pos hl] at hY
    unfold u64 i64
    omega
  · rename_i hl
    rw [if_neg hl] at hY
    unfold u64 i64
    omega

end time

namespace time

theorem abs_Date_civil (y m d : Int) (h0 : -292277022399 < y) (h1 : y ≤ 1000000)
    (hm0 : 1 ≤ m) (hm1 : m ≤ 12) (hd0 : 0 ≤ d) (hd1 : d ≤ 31) :
    (Date y m d 0 0 0 0 UTC).abs = (daysSinceEpoch y + ydayOf y m d) * 86400 := by
  rw [Date_civil y m d h0 h1 hm0 hm1 hd0 hd1]
  have hY := ydayOf_lower y m d hm0 hm1 hd0 hd1
  have hE := daysSinceEpoch_bounds y h0 h1
  have hoff : UTC.offset = 0 := rfl
  simp only [Time.abs, hoff, unixToInternal, internalToAbsolute, u64]
  omega

/-- accessors of a valid civil date -/
theorem Date_accessors (y m d : Int) (h0 : -292277022399 < y) (h1 : y ≤ 1000000)
    (hm0 : 1 ≤ m) (hm1 : m ≤ 12) (hd0 : 1 ≤ d) (hd1 : d ≤ daysIn m y) :
    (Date y m d 0 0 0 0 UTC).Year = y ∧ (Date y m d 0 0 0 0 UTC).Month = m ∧
    (Date y m d 0 0 0 0 UTC).Day = d ∧ (Date y m d 0 0 0 0 UTC).Hour = 0 ∧
    (Date y m d 0 0 0 0 UTC).Minute = 0 ∧ (Date y m d 0 0 0 0 UTC).Second = 0 ∧
    (Date y m d 0 0 0 0 UTC).Nanosecond = 0 ∧ (Date y m d 0 0 0 0 UTC).loc = UTC := by
  have hd31 : d ≤ 31 := by
    refine le_trans hd1 ?_
    obtain ⟨v0, v1, v2, v3, v4, v5, v6, v7, v8, v9, v10, v11, v12⟩ := daysBeforeAt_vals
    unfold daysIn
    interval_cases m <;> cases isLeap y <;>
      simp [v0, v1, v2, v3, v4, v5, v6, v7, v8, v9, v10, v11, v12]
  have ha := abs_Date_civil y m d h0 h1 hm0 hm1 (by omega) hd31
  have hc := absDate_civil y m d 0 (by omega) h1 hm0 hm1 hd0 hd1 (by omega) (by omega)
  rw [add_zero] at hc
  have hD := Date_civil y m d h0 h1 hm0 hm1 (by omega) hd31
  refine ⟨?_, ?_, ?_, ?_, ?_, ?_, ?_, ?_⟩
  · simp only [Time.Year, ha, hc]
  · simp only [Time.Month, ha, hc]
  · simp only [Time.Day, ha, hc]
  · simp only [Time.Hour, ha, secondsPerDay, secondsPerHour]; omega
  · simp only [Time.Minute, ha, secondsPerMinute, secondsPerHour]; omega
  · simp only [Time.Second, ha, secondsPerMinute]; omega
  · rw [hD]; rfl
  · rw [hD]

theorem daysSinceEpoch_linear (y : Int) (h0 : -292277022399 ≤ y) (h1 : y ≤ 1000000) :
    daysSinceEpoch y = 365 * (y + 292277022399) + (y + 292277022399) / 4
      - (y + 292277022399) / 100 + (y + 292277022399) / 400 := by
  rw [daysSinceEpoch_eq y h0 h1]
  generalize hY : y + 292277022399 = Y at *
  obtain ⟨a, ha⟩ : ∃ a, a = Y / 400 := ⟨_, rfl⟩
  obtain ⟨b, hb⟩ : ∃ b, b = Y % 400 / 100 := ⟨_, rfl⟩
  obtain ⟨c, hc⟩ : ∃ c, c = Y % 100 / 4 := ⟨_, rfl⟩
  obtain ⟨e, he⟩ : ∃ e, e = Y % 4 := ⟨_, rfl⟩
  rw [← ha, ← hb, ← hc, ← he]
  have hYe : Y = 400 * a + 100 * b + 4 * c + e := by omega
  have hb' : 0 ≤ b ∧ b < 4 := by omega
  have hc' : 0 ≤ c ∧ c < 25 := by omega
  have he' : 0 ≤ e ∧ e < 4 := by omega
  have q4 : Y / 4 = 100 * a + 25 * b + c := by omega
  have q100 : Y / 100 = 4 * a + b := by omega
  rw [q4, q100]
  omega

theorem div_succ_step (Y k : Int) (hk : 0 < k) :
    (Y + 1) / k = Y / k + (if (Y + 1) % k = 0 then 1 else 0) := by
  have h1 := Int.emod_add_ediv Y k
  have h2 := Int.emod_add_ediv (Y + 1) k
  have h3 := Int.emod_nonneg Y (ne_of_gt hk)
  have h4 := Int.emod_lt_of_pos Y hk
  have h5 := Int.emod_nonneg (Y + 1) (ne_of_gt hk)
  have h6 := Int.emod_lt_of_pos (Y + 1) hk
  split
  · rename_i h0
    rw [h0] at h2
    have : k * ((Y + 1) / k - Y / k - 1) = Y % k + 1 - k := by ring_nf; ring_nf at h1 h2; omega
    have hle : Y % k + 1 - k ≤ 0 := by omega
    have hge : -k < Y % k + 1 - k := by omega
    have : (Y + 1) / k - Y / k - 1 = 0 := by
      by_contra hne
      rcases lt_or_gt_of_ne hne with hlt | hgt
      · have : k * ((Y + 1) / k - Y / k - 1) ≤ k * (-1) :=
          mul_le_mul_of_nonneg_left (by omega) (le_of_lt hk)
        omega
      · have : k * 1 ≤ k * ((Y + 1) / k - Y / k - 1) :=
          mul_le_mul_of_nonneg_left (by omega) (le_of_lt hk)
        omega
    omega
  · rename_i h0
    have : k * ((Y + 1) / k - Y / k) = Y % k + 1 - (Y + 1) % k := by ring_nf; ring_nf at h1 h2; omega
    have hpos : 0 < (Y + 1) % k := lt_of_le_of_ne h5 (Ne.symm h0)
    have : (Y + 1) / k - Y / k = 0 := by
      by_contra hne
      rcases lt_or_gt_of_ne hne with hlt | hgt
      · have : k * ((Y + 1) / k - Y / k) ≤ k * (-1) :=
          mul_le_mul_of_nonneg_left (by omega) (le_of_lt hk)
        omega
      · have : k * 1 ≤ k * ((Y + 1) / k - Y / k) :=
          mul_le_mul_of_nonneg_left (by omega) (le_of_lt hk)
        omega
    omega

theorem daysSinceEpoch_succ (y : Int) (h0 : -292277022399 ≤ y) (h1 : y < 1000000) :
    daysSinceEpoch (y + 1) = daysSinceEpoch y + 365 + (if isLeap y then 1 else 0) := by
  rw [daysSinceEpoch_linear y h0 (by omega), daysSinceEpoch_linear (y + 1) (by omega) (by omega)]
  have m4 : (y + 292277022399 + 1) % 4 = y % 4 := by omega
  have m100 : (y + 292277022399 + 1) % 100 = y % 100 := by omega
  have m400 : (y + 292277022399 + 1) % 400 = y % 400 := by omega
  have e : y + 1 + 292277022399 = y + 292277022399 + 1 := by ring
  rw [e, div_succ_step _ 4 (by norm_num), div_succ_step _ 100 (by norm_num),
    div_succ_step _ 400 (by norm_num), m4, m100, m400]
  clear m4 m100 m400 e
  generalize (y + 292277022399) / 4 = A
  generalize (y + 292277022399) / 100 = B
  generalize (y + 292277022399) / 400 = C
  have hl := isLeap_iff y
  by_cases h : isLeap y = true
  · have hy := hl.1 h
    rw [if_pos h]
    clear hl h
    split <;> split <;> split <;> omega
  · have hn : ¬ (y % 4 = 0 ∧ (y % 100 ≠ 0 ∨ y % 400 = 0)) := fun x => h (hl.2 x)
    rw [if_neg h]
    clear hl h
    split <;> split <;> split <;> omega

theorem daysSinceEpoch_mono (y z : Int) (h0 : -292277022399 ≤ y) (hyz : y ≤ z) (h1 : z ≤ 1000000) :
    daysSinceEpoch z ≥ daysSinceEpoch y + 365 * (z - y) := by
  rw [daysSinceEpoch_linear y h0 (by omega), daysSinceEpoch_linear z (by omega) (by omega)]
  omega

theorem norm_carry (hi : Int) : norm hi 12 12 = (hi + 1, 0) := by
  unfold norm
  rw [if_neg (by omega)]
  simp only []
  rw [if_pos (by omega)]
  norm_num

theorem Date_month_13 (y d : Int) : Date y 13 d 0 0 0 0 UTC = Date (y + 1) 1 d 0 0 0 0 UTC := by
  have n1 : norm y (13 - 1) 12 = (y + 1, 0) := norm_carry y
  have n2 : norm (y + 1) (1 - 1) 12 = (y + 1, 0) := norm_id (y + 1) 0 12 (by omega) (by omega)
  unfold Date
  simp only [n1, n2]

theorem daysIn_le_31 (y m : Int) (hm0 : 1 ≤ m) (hm1 : m ≤ 12) :
    28 ≤ daysIn m y ∧ daysIn m y ≤ 31 := by
  obtain ⟨v0, v1, v2, v3, v4, v5, v6, v7, v8, v9, v10, v11, v12⟩ := daysBeforeAt_vals
  unfold daysIn
  interval_cases m <;> cases isLeap y <;>
    simp [v0, v1, v2, v3, v4, v5, v6, v7, v8, v9, v10, v11, v12]

theorem ydayOf_month_end (y m : Int) (hm0 : 1 ≤ m) (hm1 : m < 12) :
    ydayOf y (m + 1) 0 = ydayOf y m (daysIn m y) := by
  obtain ⟨v0, v1, v2, v3, v4, v5, v6, v7, v8, v9, v10, v11, v12⟩ := daysBeforeAt_vals
  unfold ydayOf daysIn
  interval_cases m <;> cases isLeap y <;>
    simp [v0, v1, v2, v3, v4, v5, v6, v7, v8, v9, v10, v11, v12]

theorem Date_month_end (y m : Int) (h0 : -292277022399 < y) (h1 : y < 1000000)
    (hm0 : 1 ≤ m) (hm1 : m ≤ 12) :
    Date y (m + 1) 0 0 0 0 0 UTC = Date y m (daysIn m y) 0 0 0 0 UTC := by
  have hI := daysIn_le_31 y m hm0 hm1
  rw [Date_civil y m (daysIn m y) h0 (by omega) hm0 hm1 (by omega) hI.2]
  by_cases h12 : m = 12
  · subst h12
    have e : (12 : Int) + 1 = 13 := by norm_num
    rw [e, Date_month_13, Date_civil (y + 1) 1 0 (by omega) (by omega) (by omega) (by omega)
      (by omega) (by omega), daysSinceEpoch_succ y (by omega) h1]
    obtain ⟨v0, v1, v2, v3, v4, v5, v6, v7, v8, v9, v10, v11, v12⟩ := daysBeforeAt_vals
    have d12 : daysIn 12 y = 31 := by simp [daysIn, v11, v12]
    have y1 : ydayOf (y + 1) 1 0 = -1 := by simp [ydayOf, v0]
    have y2 : ydayOf y 12 31 = 334 + (if isLeap y then 1 else 0) + 30 := by
      simp [ydayOf, v11]
    rw [d12, y1, y2]
    congr 1
    ring
  · rw [Date_civil y (m + 1) 0 h0 (by omega) (by omega) (by omega) (by omega) (by omega),
      ydayOf_month_end y m hm0 (by omega)]

theorem ydayOf_le_month_end (y m d m2 : Int) (hm0 : 1 ≤ m) (hmm : m ≤ m2) (hn1 : m2 ≤ 12)
    (hd1 : d ≤ daysIn m y) : ydayOf y m d ≤ ydayOf y m2 (daysIn m2 y) := by
  obtain ⟨v0, v1, v2, v3, v4, v5, v6, v7, v8, v9, v10, v11, v12⟩ := daysBeforeAt_vals
  have hm1 : m ≤ 12 := by omega
  have hn0 : 1 ≤ m2 := by omega
  unfold ydayOf daysIn at *
  interval_cases m <;> interval_cases m2 <;> cases hL : isLeap y <;>
    simp [hL, v0, v1, v2, v3, v4, v5, v6, v7, v8, v9, v10, v11, v12] at hd1 ⊢ <;> omega

theorem Date_day_le_last (y m d y2 m2 : Int) (h0 : -292277022399 < y) (h1 : y2 < 1000000)
    (hm0 : 1 ≤ m) (hm1 : m ≤ 12) (hd0 : 1 ≤ d) (hd1 : d ≤ daysIn m y)
    (hn0 : 1 ≤ m2) (hn1 : m2 ≤ 12)
    (hle : y < y2 ∨ (y = y2 ∧ m ≤ m2)) :
    (Date y m d 0 0 0 0 UTC).unix ≤ (Date y2 m2 (daysIn m2 y2) 0 0 0 0 UTC).unix := by
  have hI := daysIn_le_31 y2 m2 hn0 hn1
  have hJ := daysIn_le_31 y m hm0 hm1
  have hy2 : y ≤ y2 := by omega
  rw [Date_civil y m d h0 (by omega) hm0 hm1 (by omega) (by omega),
    Date_civil y2 m2 (daysIn m2 y2) (by omega) (by omega) hn0 hn1 (by omega) hI.2]
  simp only []
  have b1 := ydayOf_bounds y m d hm0 hm1 hd0 hd1
  have b2 := ydayOf_bounds y2 m2 (daysIn m2 y2) hn0 hn1 (by omega) (le_refl _)
  rcases hle with hlt | ⟨rfl, hmm⟩
  · have s1 := daysSinceEpoch_succ y (by omega) (by omega)
    have s2 := daysSinceEpoch_mono (y + 1) y2 (by omega) (by omega) (by omega)
    generalize (if isLeap y then (1 : Int) else 0) = L at *
    omega
  · have := ydayOf_le_month_end y m d m2 hm0 hmm hn1 hd1
    omega

end time

/-! ## `time.Parse` on the layout `01-2006` -/

namespace time

theorem str_hyphen : str "-" = [45] := by decide

theorem skip_nil (value : GoString) : skip value [] = some value := by
  simp [skip, skipLoop]

theorem skip_hyphen_nil : skip [] [45] = none := by
  simp [skip, skipLoop]

theorem skip_hyphen_cons (v : Nat) (vs : GoString) :
    skip (v :: vs) [45] = if v = 45 then some vs else none := by
  by_cases h : v = 45
  · subst h; simp [skip, skipLoop]
  · simp [skip, skipLoop, h]

theorem getnum_fixed (s : GoString) :
    getnum s true = match s with
      | a :: b :: rest =>
        if Spec.digit a && Spec.digit b then some (Spec.num2 a b, rest) else none
      | _ => none := by
  rcases s with _ | ⟨a, _ | ⟨b, rest⟩⟩
  · simp [getnum, isDigit]
  · simp [getnum, isDigit]
  · simp only [getnum, isDigit, Spec.digit, Spec.num2]
    by_cases ha : (48 ≤ a ∧ a ≤ 57) <;> by_cases hb : (48 ≤ b ∧ b ≤ 57) <;> simp [ha, hb]

theorem leadingInt_digit (x c : Nat) (cs : GoString) (hc : 48 ≤ c ∧ c ≤ 57) (hx : x ≤ 9999) :
    leadingInt x (c :: cs) = leadingInt (x * 10 + (c - 48)) cs := by
  have e : x * 10 + c - 48 = x * 10 + (c - 48) := by omega
  rw [leadingInt, if_neg (by omega), if_neg (by omega)]
  simp only [e]
  rw [if_neg (by omega)]

theorem leadingInt_nondigit (x c : Nat) (cs : GoString) (hc : ¬ (48 ≤ c ∧ c ≤ 57)) :
    leadingInt x (c :: cs) = some (x, c :: cs) := by
  rw [leadingInt, if_pos (by omega)]

theorem atoi_digits4 (c d e f : Nat) :
    (if [c, d, e, f].length < 4 ∨ (!isDigit [c, d, e, f] 0) = true then none
      else atoi [c, d, e, f])
      = if Spec.digit c && Spec.digit d && Spec.digit e && Spec.digit f
        then some (Spec.num4 c d e f) else none := by
  by_cases hc : (48 ≤ c ∧ c ≤ 57)
  · have hc45 : c ≠ 45 := by omega
    have hc43 : c ≠ 43 := by omega
    have hd0 : isDigit [c, d, e, f] 0 = true := by simp [isDigit, hc]
    simp only [List.length_cons, List.length_nil, hd0, atoi]
    have s1 : (some c == some 45) = false := by simp [hc45]
    have s2 : (some c == some 43) = false := by simp [hc43]
    simp only [List.head?, s1, s2, Bool.or_self, Bool.and_false, Bool.false_and,
      Bool.false_eq_true, if_false]
    rw [leadingInt_digit 0 c _ hc (by omega)]
    by_cases hd : (48 ≤ d ∧ d ≤ 57)
    · rw [leadingInt_digit _ d _ hd (by omega)]
      by_cases he : (48 ≤ e ∧ e ≤ 57)
      · rw [leadingInt_digit _ e _ he (by omega)]
        by_cases hf : (48 ≤ f ∧ f ≤ 57)
        · rw [leadingInt_digit _ f _ hf (by omega)]
          simp [leadingInt, Spec.digit, Spec.num4, hc, hd, he, hf]
          omega
        · rw [leadingInt_nondigit _ f _ hf]
          simp [Spec.digit, hf]
      · rw [leadingInt_nondigit _ e _ he]
        simp [Spec.digit, he]
    · rw [leadingInt_nondigit _ d _ hd]
      simp [Spec.digit, hd]
  · simp [isDigit, Spec.digit, hc]

theorem atoi4_ok (c d e f : Nat)
    (h : (Spec.digit c && Spec.digit d && Spec.digit e && Spec.digit f) = true) :
    atoi [c, d, e, f] = some (Spec.num4 c d e f) := by
  have := atoi_digits4 c d e f
  have hc : isDigit [c, d, e, f] 0 = true := by
    simp only [Bool.and_eq_true] at h
    simpa [isDigit, Spec.digit] using h.1.1.1
  simpa [hc, h] using this

theorem atoi4_bad (c d e f : Nat) (hc : Spec.digit c = true)
    (h : (Spec.digit c && Spec.digit d && Spec.digit e && Spec.digit f) = false) :
    atoi [c, d, e, f] = none := by
  have := atoi_digits4 c d e f
  have hc : isDigit [c, d, e, f] 0 = true := by
    simpa [isDigit, Spec.digit] using hc
  simpa [hc, h] using this

theorem Parse_error (s : GoString) (h : Spec.isMonthYear s = false) :
    ∃ e, Parse s = .error e := by
  unfold Parse
  simp only [skip_nil, getnum_fixed, str_hyphen]
  rcases s with _ | ⟨a, _ | ⟨b, rest⟩⟩
  · exact ⟨_, rfl⟩
  · exact ⟨_, rfl⟩
  simp only []
  by_cases hab : (Spec.digit a && Spec.digit b) = true
  swap
  · rw [if_neg hab]; exact ⟨_, rfl⟩
  rw [if_pos hab]
  simp only []
  by_cases hm : Spec.num2 a b ≤ 0 ∨ 12 < Spec.num2 a b
  · rw [if_pos hm]; exact ⟨_, rfl⟩
  rw [if_neg hm]
  rcases rest with _ | ⟨hy, value⟩
  · rw [skip_hyphen_nil]; exact ⟨_, rfl⟩
  rw [skip_hyphen_cons]
  by_cases h45 : hy = 45
  swap
  · rw [if_neg h45]; exact ⟨_, rfl⟩
  subst h45
  rw [if_pos rfl]
  dsimp only
  rcases value with _ | ⟨c, _ | ⟨d, _ | ⟨e, _ | ⟨f, tail⟩⟩⟩⟩
  · exact ⟨_, rfl⟩
  · exact ⟨_, rfl⟩
  · exact ⟨_, rfl⟩
  · exact ⟨_, rfl⟩
  have hlen : ¬ ((c :: d :: e :: f :: tail).length < 4) := by simp
  by_cases hc : Spec.digit c = true
  swap
  · have : isDigit (c :: d :: e :: f :: tail) 0 = false := by
      simpa [isDigit, Spec.digit] using hc
    rw [if_pos (by simp [this])]
    exact ⟨_, rfl⟩
  have hd0 : isDigit (c :: d :: e :: f :: tail) 0 = true := by
    simpa [isDigit, Spec.digit] using hc
  rw [if_neg (by simp [hd0])]
  have htake : List.take 4 (c :: d :: e :: f :: tail) = [c, d, e, f] := by simp
  have hdrop : List.drop 4 (c :: d :: e :: f :: tail) = tail := by simp
  rw [htake, hdrop]
  by_cases hy : (Spec.digit c && Spec.digit d && Spec.digit e && Spec.digit f) = true
  swap
  · rw [atoi4_bad c d e f hc (by simpa using hy)]
    exact ⟨_, rfl⟩
  rw [atoi4_ok c d e f hy]
  simp only []
  rcases tail with _ | ⟨g, tail⟩
  swap
  · rw [if_pos (by simp)]
    exact ⟨_, rfl⟩
  exfalso
  simp only [Spec.isMonthYear] at h
  simp only [Bool.and_eq_true] at hab hy
  simp [hab.1, hab.2, hy.1.1.1, hy.1.1.2, hy.1.2, hy.2] at h
  omega

end time

/-! ## `parseMonthYear` -/

theorem isMonthYear_shape (s : GoString) (h : Spec.isMonthYear s = true) :
    ∃ a b c d e f, s = [a, b, 45, c, d, e, f] ∧
      Spec.digit a = true ∧ Spec.digit b = true ∧ Spec.digit c = true ∧ Spec.digit d = true ∧
      Spec.digit e = true ∧ Spec.digit f = true ∧ 1 ≤ Spec.num2 a b ∧ Spec.num2 a b ≤ 12 := by
  rcases s with _ | ⟨a, _ | ⟨b, _ | ⟨hy, _ | ⟨c, _ | ⟨d, _ | ⟨e, _ | ⟨f, _ | ⟨g, tail⟩⟩⟩⟩⟩⟩⟩⟩ <;>
    simp [Spec.isMonthYear] at h
  obtain ⟨⟨⟨⟨⟨⟨⟨⟨ha, hb⟩, hh⟩, hc⟩, hd⟩, he⟩, hf⟩, h1⟩, h2⟩ := h
  subst hh
  exact ⟨a, b, c, d, e, f, rfl, ha, hb, hc, hd, he, hf, h1, h2⟩

theorem num4_bounds (c d e f : Nat) (hc : Spec.digit c = true) (hd : Spec.digit d = true)
    (he : Spec.digit e = true) (hf : Spec.digit f = true) :
    0 ≤ Spec.num4 c d e f ∧ Spec.num4 c d e f ≤ 9999 := by
  simp only [Spec.digit, Bool.and_eq_true, decide_eq_true_eq] at hc hd he hf
  unfold Spec.num4
  omega

theorem isMonthYear_bounds (s : GoString) (h : Spec.isMonthYear s = true) :
    1 ≤ Spec.monthOf s ∧ Spec.monthOf s ≤ 12 ∧ 0 ≤ Spec.yearOf s ∧ Spec.yearOf s ≤ 9999 := by
  obtain ⟨a, b, c, d, e, f, rfl, ha, hb, hc, hd, he, hf, h1, h2⟩ := isMonthYear_shape s h
  have := num4_bounds c d e f hc hd he hf
  exact ⟨h1, h2, this.1, this.2⟩

theorem Parse_ok (s : GoString) (h : Spec.isMonthYear s = true) :
    time.Parse s = .ok (time.Date (Spec.yearOf s) (Spec.monthOf s) 1 0 0 0 0 time.UTC) := by
  obtain ⟨a, b, c, d, e, f, rfl, ha, hb, hc, hd, he, hf, h1, h2⟩ := isMonthYear_shape s h
  have hy := num4_bounds c d e f hc hd he hf
  have hI := time.daysIn_le_31 (Spec.num4 c d e f) (Spec.num2 a b) h1 h2
  unfold time.Parse
  simp only [time.skip_nil, time.getnum_fixed, time.str_hyphen]
  rw [if_pos (by simp [ha, hb])]
  dsimp only
  rw [if_neg (by omega), time.skip_hyphen_cons, if_pos rfl]
  dsimp only
  have hd0 : time.isDigit [c, d, e, f] 0 = true := by
    simpa [time.isDigit, Spec.digit] using hc
  rw [if_neg (by simp [hd0])]
  have htake : List.take 4 [c, d, e, f] = [c, d, e, f] := by simp
  have hdrop : List.drop 4 [c, d, e, f] = [] := by simp
  rw [htake, hdrop, time.atoi4_ok c d e f (by simp [hc, hd, he, hf])]
  dsimp only
  rw [if_neg (by simp), if_neg (by omega)]
  rfl

theorem parseMonthYear_ok (s : GoString) (h : Spec.isMonthYear s = true) :
    service.parseMonthYear s = .ok (Spec.firstDay s) := by
  have hb := isMonthYear_bounds s h
  have hI := time.daysIn_le_31 (Spec.yearOf s) (Spec.monthOf s) hb.1 hb.2.1
  have acc := time.Date_accessors (Spec.yearOf s) (Spec.monthOf s) 1 (by omega) (by omega)
    hb.1 hb.2.1 (by omega) (by omega)
  unfold service.parseMonthYear
  rw [Parse_ok s h]
  dsimp only
  rw [acc.1, acc.2.1]
  rfl

theorem parseMonthYear_error (s : GoString) (h : Spec.isMonthYear s = false) :
    ∃ e, service.parseMonthYear s = .error e := by
  obtain ⟨e, he⟩ := time.Parse_error s h
  exact ⟨.parseError e, by unfold service.parseMonthYear; rw [he]⟩

/-! ## The total-cost statement -/

theorem whereHolds_totalCostQuery (sp ep : time.Time) (u : Option UUID) (n : Option GoString)
    (r : model.Subscription) :
    sql.whereHolds (repository.totalCostQuery sp ep u n).args r
        (repository.totalCostQuery sp ep u n).conds
      = some (Spec.overlaps sp ep r && Spec.matchesUser u r && Spec.matchesService n r) := by
  cases u <;> cases n <;> cases hE : r.EndDate <;>
    simp [repository.totalCostQuery, sql.whereHolds, sql.Cond.holds, sql.argAt, Spec.overlaps,
      Spec.matchesUser, Spec.matchesService, hE, Bool.and_assoc]

theorem selectWhere_totalCostQuery (sp ep : time.Time) (u : Option UUID) (n : Option GoString)
    (rows : List model.Subscription) :
    sql.selectWhere (repository.totalCostQuery sp ep u n).args
        (repository.totalCostQuery sp ep u n).conds rows
      = some (rows.filter (fun r =>
          Spec.overlaps sp ep r && Spec.matchesUser u r && Spec.matchesService n r)) := by
  induction rows with
  | nil => rfl
  | cons r rs ih =>
    rw [sql.selectWhere, ih, whereHolds_totalCostQuery]
    simp only [List.filter_cons]

theorem totalCostQuery_params (sp ep : time.Time) (u : Option UUID) (n : Option GoString) :
    (repository.totalCostQuery sp ep u n).args.length
      = ((repository.totalCostQuery sp ep u n).conds.map sql.Cond.param).foldl max 0 := by
  cases u <;> cases n <;> rfl

theorem repository_CalculateTotalCost_eq (rows : List model.Subscription) (nextID : Int)
    (sp ep : time.Time) (u : Option UUID) (n : Option GoString) :
    repository.CalculateTotalCost ⟨rows, nextID, none⟩ sp ep u n
      = (let total := sql.sumPrice (rows.filter (fun r =>
            Spec.overlaps sp ep r && Spec.matchesUser u r && Spec.matchesService n r))
         if total < -2147483648 ∨ total > 2147483647 then
           .error (.errorfErr "failed to calculate total cost: %v"
             (.driverError "converting driver.Value type int64 to a int32: value out of range"))
         else .ok total) := by
  unfold repository.CalculateTotalCost sql.queryRowSum
  simp only [selectWhere_totalCostQuery, totalCostQuery_params]
  simp only [ne_eq, not_true_eq_false, if_false]
  by_cases h : sql.sumPrice (rows.filter (fun r =>
      Spec.overlaps sp ep r && Spec.matchesUser u r && Spec.matchesService n r)) < -2147483648 ∨
    sql.sumPrice (rows.filter (fun r =>
      Spec.overlaps sp ep r && Spec.matchesUser u r && Spec.matchesService n r)) > 2147483647
  · rw [if_pos h, if_pos h]
  · rw [if_neg h, if_neg h]

theorem service_CalculateTotalCost_eq (db : sql.DB) (req : model.TotalCostRequest)
    (hs : Spec.isMonthYear req.StartDate = true) (he : Spec.isMonthYear req.EndDate = true) :
    service.CalculateTotalCost db req
      = match repository.CalculateTotalCost db (Spec.firstDay req.StartDate)
            (Spec.lastDay req.EndDate) req.UserID req.ServiceName with
        | .error err => .error (.errorfErr "failed to calculate total cost: %v" err)
        | .ok total => .ok total := by
  have hb := isMonthYear_bounds req.EndDate he
  have acc := time.Date_accessors (Spec.yearOf req.EndDate) (Spec.monthOf req.EndDate) 1
    (by omega) (by omega) hb.1 hb.2.1 (by omega)
    (by have := time.daysIn_le_31 (Spec.yearOf req.EndDate) (Spec.monthOf req.EndDate) hb.1 hb.2.1; omega)
  have hend := time.Date_month_end (Spec.yearOf req.EndDate) (Spec.monthOf req.EndDate)
    (by omega) (by omega) hb.1 hb.2.1
  unfold service.CalculateTotalCost
  rw [parseMonthYear_ok _ hs, parseMonthYear_ok _ he]
  dsimp only
  have e1 : (Spec.firstDay req.EndDate).Year = Spec.yearOf req.EndDate := acc.1
  have e2 : (Spec.firstDay req.EndDate).Month = Spec.monthOf req.EndDate := acc.2.1
  rw [e1, e2, hend]
  rfl

/-! ## The date model (C1, C2) -/

/-- C1: for every string of the form MM-YYYY (two-digit month 01..12, four-digit
year) `parseMonthYear` succeeds, and the time it returns is the instant
year YYYY, month MM, day 1, 00:00:00.000000000 in UTC. -/
theorem parseMonthYear_valid (s : GoString) (h : Spec.isMonthYear s = true) :
    ∃ t, service.parseMonthYear s = .ok t ∧
      t = time.Date (Spec.yearOf s) (Spec.monthOf s) 1 0 0 0 0 time.UTC ∧
      t.Year = Spec.yearOf s ∧ t.Month = Spec.monthOf s ∧ t.Day = 1 ∧
      t.Hour = 0 ∧ t.Minute = 0 ∧ t.Second = 0 ∧ t.Nanosecond = 0 ∧ t.loc = time.UTC := by
  have hb := isMonthYear_bounds s h
  have hI := time.daysIn_le_31 (Spec.yearOf s) (Spec.monthOf s) hb.1 hb.2.1
  have acc := time.Date_accessors (Spec.yearOf s) (Spec.monthOf s) 1 (by omega) (by omega)
    hb.1 hb.2.1 (by omega) (by omega)
  exact ⟨_, parseMonthYear_ok s h, rfl, acc⟩

/-- Witness of C1: the string 07-2025. -/
theorem parseMonthYear_valid_witness :
    Spec.isMonthYear (str "07-2025") = true ∧
    ∃ t, service.parseMonthYear (str "07-2025") = .ok t ∧
      t = time.Date (Spec.yearOf (str "07-2025")) (Spec.monthOf (str "07-2025")) 1 0 0 0 0 time.UTC ∧
      t.Year = Spec.yearOf (str "07-2025") ∧ t.Month = Spec.monthOf (str "07-2025") ∧ t.Day = 1 ∧
      t.Hour = 0 ∧ t.Minute = 0 ∧ t.Second = 0 ∧ t.Nanosecond = 0 ∧ t.loc = time.UTC :=
  ⟨by decide, parseMonthYear_valid (str "07-2025") (by decide)⟩

/-- C2: for every string that is not exactly two decimal digits, a hyphen and
four decimal digits with the month in 1..12, `parseMonthYear` returns an error
and no date. -/
theorem parseMonthYear_invalid (s : GoString) (h : Spec.isMonthYear s = false) :
    ∃ e, service.parseMonthYear s = .error e := parseMonthYear_error s h

/-- Witness of C2: the empty string, a one-digit month, month 00 and 13, letters,
a two-digit year, leading and trailing extra text. -/
theorem parseMonthYear_invalid_witness :
    (∃ e, service.parseMonthYear (str "") = .error e) ∧
    (∃ e, service.parseMonthYear (str "7-2025") = .error e) ∧
    (∃ e, service.parseMonthYear (str "00-2025") = .error e) ∧
    (∃ e, service.parseMonthYear (str "13-2025") = .error e) ∧
    (∃ e, service.parseMonthYear (str "ab-2025") = .error e) ∧
    (∃ e, service.parseMonthYear (str "07-25") = .error e) ∧
    (∃ e, service.parseMonthYear (str " 07-2025") = .error e) ∧
    (∃ e, service.parseMonthYear (str "07-2025x") = .error e) :=
  ⟨parseMonthYear_invalid (str "") (by decide),
   parseMonthYear_invalid (str "7-2025") (by decide),
   parseMonthYear_invalid (str "00-2025") (by decide),
   parseMonthYear_invalid (str "13-2025") (by decide),
   parseMonthYear_invalid (str "ab-2025") (by decide),
   parseMonthYear_invalid (str "07-25") (by decide),
   parseMonthYear_invalid (str " 07-2025") (by decide),
   parseMonthYear_invalid (str "07-2025x") (by decide)⟩

/-! ## Total cost over a period (C3, C4, C5) -/

theorem lastDay_accessors (s : GoString) (h : Spec.isMonthYear s = true) :
    (Spec.lastDay s).Year = Spec.yearOf s ∧ (Spec.lastDay s).Month = Spec.monthOf s ∧
    (Spec.lastDay s).Day = time.daysIn (Spec.monthOf s) (Spec.yearOf s) ∧
    (Spec.lastDay s).Hour = 0 ∧ (Spec.lastDay s).Minute = 0 ∧ (Spec.lastDay s).Second = 0 ∧
    (Spec.lastDay s).Nanosecond = 0 ∧ (Spec.lastDay s).loc = time.UTC := by
  have hb := isMonthYear_bounds s h
  have hI := time.daysIn_le_31 (Spec.yearOf s) (Spec.monthOf s) hb.1 hb.2.1
  exact time.Date_accessors (Spec.yearOf s) (Spec.monthOf s) _ (by omega) (by omega)
    hb.1 hb.2.1 (by omega) (le_refl _)

/-- C3: for every valid end period MM-YYYY (and valid start period), the service
hands the repository, as the end-of-period boundary bound to `$1`, midnight UTC of
the last calendar day of that same month and year: 07-2025 gives 2025-07-31,
02-2024 gives 2024-02-29, 02-2025 gives 2025-02-28 and 12-YYYY gives YYYY-12-31. -/
theorem totalCost_end_boundary (db : sql.DB) (req : model.TotalCostRequest)
    (hs : Spec.isMonthYear req.StartDate = true) (he : Spec.isMonthYear req.EndDate = true) :
    (service.CalculateTotalCost db req
      = match repository.CalculateTotalCost db (Spec.firstDay req.StartDate)
            (Spec.lastDay req.EndDate) req.UserID req.ServiceName with
        | .error err => .error (.errorfErr "failed to calculate total cost: %v" err)
        | .ok total => .ok total) ∧
    sql.argAt (repository.totalCostQuery (Spec.firstDay req.StartDate)
        (Spec.lastDay req.EndDate) req.UserID req.ServiceName).args 1
      = some (.time (Spec.lastDay req.EndDate)) ∧
    (Spec.lastDay req.EndDate).Year = Spec.yearOf req.EndDate ∧
    (Spec.lastDay req.EndDate).Month = Spec.monthOf req.EndDate ∧
    (Spec.lastDay req.EndDate).Day
      = time.daysIn (Spec.monthOf req.EndDate) (Spec.yearOf req.EndDate) ∧
    (Spec.lastDay req.EndDate).Hour = 0 ∧ (Spec.lastDay req.EndDate).Minute = 0 ∧
    (Spec.lastDay req.EndDate).Second = 0 ∧ (Spec.lastDay req.EndDate).Nanosecond = 0 ∧
    (Spec.lastDay req.EndDate).loc = time.UTC ∧
    (Spec.monthOf req.EndDate = 12 → (Spec.lastDay req.EndDate).Day = 31) ∧
    Spec.lastDay (str "07-2025") = time.Date 2025 7 31 0 0 0 0 time.UTC ∧
    Spec.lastDay (str "02-2024") = time.Date 2024 2 29 0 0 0 0 time.UTC ∧
    Spec.lastDay (str "02-2025") = time.Date 2025 2 28 0 0 0 0 time.UTC := by
  have acc := lastDay_accessors req.EndDate he
  refine ⟨service_CalculateTotalCost_eq db req hs he, ?_, acc.1, acc.2.1, acc.2.2.1,
    acc.2.2.2.1, acc.2.2.2.2.1, acc.2.2.2.2.2.1, acc.2.2.2.2.2.2.1, acc.2.2.2.2.2.2.2, ?_,
    by rfl, by rfl, by rfl⟩
  · cases req.UserID <;> cases req.ServiceName <;> rfl
  · intro h12
    rw [acc.2.2.1, h12]
    obtain ⟨v0, v1, v2, v3, v4, v5, v6, v7, v8, v9, v10, v11, v12⟩ := time.daysBeforeAt_vals
    simp [time.daysIn, v11, v12]

/-- Witness of C3: the request for 01-2025 .. 07-2025 on an empty store. -/
theorem totalCost_end_boundary_witness :
    Spec.isMonthYear (str "01-2025") = true ∧ Spec.isMonthYear (str "07-2025") = true ∧
    (Spec.lastDay (str "07-2025")).Year = 2025 ∧ (Spec.lastDay (str "07-2025")).Month = 7 ∧
    (Spec.lastDay (str "07-2025")).Day = 31 :=
  have h := totalCost_end_boundary ⟨[], 1, none⟩ ⟨str "01-2025", str "07-2025", none, none⟩
    (by decide) (by decide)
  ⟨by decide, by decide, h.2.2.1, h.2.2.2.1, h.2.2.2.2.1⟩

theorem timeLE_day_last (ys ms d ye me : Int) (hys : 0 ≤ ys) (hye : ye ≤ 9999)
    (hm0 : 1 ≤ ms) (hm1 : ms ≤ 12) (hd0 : 1 ≤ d) (hd1 : d ≤ time.daysIn ms ys)
    (hn0 : 1 ≤ me) (hn1 : me ≤ 12)
    (hle : ys < ye ∨ (ys = ye ∧ ms ≤ me)) :
    sql.timeLE (time.Date ys ms d 0 0 0 0 time.UTC)
      (time.Date ye me (time.daysIn me ye) 0 0 0 0 time.UTC) = true := by
  have hu := time.Date_day_le_last ys ms d ye me (by omega) (by omega) hm0 hm1 hd0 hd1
    hn0 hn1 hle
  have hI := time.daysIn_le_31 ye me hn0 hn1
  have hJ := time.daysIn_le_31 ys ms hm0 hm1
  have n1 : (time.Date ys ms d 0 0 0 0 time.UTC).nsec = 0 := by
    rw [time.Date_civil ys ms d (by omega) (by omega) hm0 hm1 (by omega) (by omega)]
  have n2 : (time.Date ye me (time.daysIn me ye) 0 0 0 0 time.UTC).nsec = 0 := by
    rw [time.Date_civil ye me _ (by omega) (by omega) hn0 hn1 (by omega) hI.2]
  unfold sql.timeLE
  rw [n1, n2]
  rcases lt_or_eq_of_le hu with h | h
  · simp [h]
  · simp [h]

theorem service_totalCost_value (rows : List model.Subscription) (nextID : Int)
    (req : model.TotalCostRequest)
    (hs : Spec.isMonthYear req.StartDate = true) (he : Spec.isMonthYear req.EndDate = true) :
    service.CalculateTotalCost ⟨rows, nextID, none⟩ req
      = if sql.sumPrice (rows.filter (Spec.contributes req)) < -2147483648 ∨
            sql.sumPrice (rows.filter (Spec.contributes req)) > 2147483647 then
          .error (.errorfErr "failed to calculate total cost: %v"
            (.errorfErr "failed to calculate total cost: %v"
              (.driverError "converting driver.Value type int64 to a int32: value out of range")))
        else .ok (sql.sumPrice (rows.filter (Spec.contributes req))) := by
  rw [service_CalculateTotalCost_eq _ req hs he, repository_CalculateTotalCost_eq]
  have hf : (fun r => Spec.overlaps (Spec.firstDay req.StartDate) (Spec.lastDay req.EndDate) r
      && Spec.matchesUser req.UserID r && Spec.matchesService req.ServiceName r)
      = Spec.contributes req := by
    funext r; rfl
  rw [hf]
  dsimp only
  by_cases h : sql.sumPrice (rows.filter (Spec.contributes req)) < -2147483648 ∨
      sql.sumPrice (rows.filter (Spec.contributes req)) > 2147483647
  · rw [if_pos h, if_pos h]
  · rw [if_neg h, if_neg h]

/-- C4: with valid start and end periods and no filters, on any stored rows (the
store being up), `CalculateTotalCost` returns, when the sum fits in 32 bits, the
sum of `price` over exactly the rows with `start_date <= end-of-period` and
(`end_date` absent or `end_date >= start-of-period`), the boundaries being the
first day of the start month and the last day of the end month; a row without
end date that starts on a day (at midnight UTC) of a month at or before the end
month is among them; and the result is 0, not an error, when no row qualifies. -/
theorem totalCost_overlap_sum (rows : List model.Subscription) (nextID : Int)
    (req : model.TotalCostRequest)
    (hs : Spec.isMonthYear req.StartDate = true) (he : Spec.isMonthYear req.EndDate = true)
    (hu : req.UserID = none) (hn : req.ServiceName = none) :
    (-2147483648 ≤ sql.sumPrice (rows.filter
          (Spec.overlaps (Spec.firstDay req.StartDate) (Spec.lastDay req.EndDate))) →
      sql.sumPrice (rows.filter
          (Spec.overlaps (Spec.firstDay req.StartDate) (Spec.lastDay req.EndDate))) ≤ 2147483647 →
      service.CalculateTotalCost ⟨rows, nextID, none⟩ req
        = .ok (sql.sumPrice (rows.filter
            (Spec.overlaps (Spec.firstDay req.StartDate) (Spec.lastDay req.EndDate))))) ∧
    (∀ sub ∈ rows, ∀ ys ms d : Int, sub.EndDate = none →
      sub.StartDate = time.Date ys ms d 0 0 0 0 time.UTC → 0 ≤ ys → 1 ≤ ms → ms ≤ 12 →
      1 ≤ d → d ≤ time.daysIn ms ys →
      (ys < Spec.yearOf req.EndDate ∨
        (ys = Spec.yearOf req.EndDate ∧ ms ≤ Spec.monthOf req.EndDate)) →
      sub ∈ rows.filter
        (Spec.overlaps (Spec.firstDay req.StartDate) (Spec.lastDay req.EndDate))) ∧
    (rows.filter (Spec.overlaps (Spec.firstDay req.StartDate) (Spec.lastDay req.EndDate)) = [] →
      service.CalculateTotalCost ⟨rows, nextID, none⟩ req = .ok 0) := by
  have hf : rows.filter (Spec.contributes req)
      = rows.filter (Spec.overlaps (Spec.firstDay req.StartDate) (Spec.lastDay req.EndDate)) := by
    congr 1
    funext r
    simp [Spec.contributes, hu, hn, Spec.matchesUser, Spec.matchesService]
  have key := service_totalCost_value rows nextID req hs he
  rw [hf] at key
  refine ⟨?_, ?_, ?_⟩
  · intro h1 h2
    rw [key, if_neg (by omega)]
  · intro sub hsub ys ms d hend hstart hys hm0 hm1 hd0 hd1 hle
    have hb := isMonthYear_bounds req.EndDate he
    rw [List.mem_filter]
    refine ⟨hsub, ?_⟩
    unfold Spec.overlaps
    rw [hend, hstart]
    simp only [Bool.and_true]
    exact timeLE_day_last ys ms d _ _ hys hb.2.2.2 hm0 hm1 hd0 hd1 hb.1 hb.2.1 hle
  · intro hnil
    rw [key, hnil]
    rfl

/-- Witness of C4: two rows priced 400 and 300, period 01-2025 .. 12-2025. -/
theorem totalCost_overlap_sum_witness :
    service.CalculateTotalCost
        ⟨[⟨1, str "Yandex Plus", 400, 7, time.Date 2025 7 1 0 0 0 0 time.UTC, none⟩,
          ⟨2, str "Netflix", 300, 8, time.Date 2025 1 1 0 0 0 0 time.UTC,
            some (time.Date 2025 3 1 0 0 0 0 time.UTC)⟩], 3, none⟩
        ⟨str "01-2025", str "12-2025", none, none⟩ = .ok 700 :=
  (totalCost_overlap_sum
    [⟨1, str "Yandex Plus", 400, 7, time.Date 2025 7 1 0 0 0 0 time.UTC, none⟩,
     ⟨2, str "Netflix", 300, 8, time.Date 2025 1 1 0 0 0 0 time.UTC,
       some (time.Date 2025 3 1 0 0 0 0 time.UTC)⟩] 3
    ⟨str "01-2025", str "12-2025", none, none⟩ (by decide) (by decide) rfl rfl).1
    (by decide) (by decide)

/-- C5: a row contributes to the total exactly when it overlaps the period, equals
the user filter when one is supplied and equals the service-name filter when one
is supplied; an absent filter excludes nothing, and a row that differs from the
supplied user filter is not counted whatever its service name. -/
theorem totalCost_filters_conjunctive (rows : List model.Subscription) (nextID : Int)
    (req : model.TotalCostRequest)
    (hs : Spec.isMonthYear req.StartDate = true) (he : Spec.isMonthYear req.EndDate = true) :
    (service.CalculateTotalCost ⟨rows, nextID, none⟩ req
      = if sql.sumPrice (rows.filter (Spec.contributes req)) < -2147483648 ∨
            sql.sumPrice (rows.filter (Spec.contributes req)) > 2147483647 then
          .error (.errorfErr "failed to calculate total cost: %v"
            (.errorfErr "failed to calculate total cost: %v"
              (.driverError "converting driver.Value type int64 to a int32: value out of range")))
        else .ok (sql.sumPrice (rows.filter (Spec.contributes req)))) ∧
    (∀ sub, Spec.contributes req sub = true ↔
      (Spec.overlaps (Spec.firstDay req.StartDate) (Spec.lastDay req.EndDate) sub = true ∧
        (∀ u, req.UserID = some u → sub.UserID = u) ∧
        (∀ n, req.ServiceName = some n → sub.ServiceName = n))) ∧
    (∀ sub u, req.UserID = some u → sub.UserID ≠ u →
      service.CalculateTotalCost ⟨sub :: rows, nextID, none⟩ req
        = service.CalculateTotalCost ⟨rows, nextID, none⟩ req) := by
  have hchar : ∀ sub, Spec.contributes req sub = true ↔
      (Spec.overlaps (Spec.firstDay req.StartDate) (Spec.lastDay req.EndDate) sub = true ∧
        (∀ u, req.UserID = some u → sub.UserID = u) ∧
        (∀ n, req.ServiceName = some n → sub.ServiceName = n)) := by
    intro sub
    cases hu : req.UserID <;> cases hn : req.ServiceName <;>
      simp [Spec.contributes, Spec.matchesUser, Spec.matchesService, hu, hn, and_assoc]
  refine ⟨service_totalCost_value rows nextID req hs he, hchar, ?_⟩
  intro sub u hu hne
  have hno : Spec.contributes req sub = false := by
    cases hc : Spec.contributes req sub
    · rfl
    · exact absurd (((hchar sub).1 hc).2.1 u hu) hne
  rw [service_totalCost_value (sub :: rows) nextID req hs he,
    service_totalCost_value rows nextID req hs he, List.filter_cons, hno]
  rfl

/-- Witness of C5: a row that matches the period and the service-name filter but
not the user filter leaves the total as it is without the row. -/
theorem totalCost_filters_conjunctive_witness :
    service.CalculateTotalCost
        ⟨[⟨1, str "Yandex Plus", 400, 7, time.Date 2025 7 1 0 0 0 0 time.UTC, none⟩], 2, none⟩
        ⟨str "01-2025", str "12-2025", some 8, some (str "Yandex Plus")⟩
      = service.CalculateTotalCost ⟨[], 2, none⟩
        ⟨str "01-2025", str "12-2025", some 8, some (str "Yandex Plus")⟩ :=
  (totalCost_filters_conjunctive [] 2 ⟨str "01-2025", str "12-2025", some 8, some (str "Yandex Plus")⟩
    (by decide) (by decide)).2.2
    ⟨1, str "Yandex Plus", 400, 7, time.Date 2025 7 1 0 0 0 0 time.UTC, none⟩ 8 rfl (by decide)

/-! ## Create (C6, C7) -/

/-- C6, the code at requests that lack a required field: with the valid start
date 07-2025, a request with an empty service name is stored and returned
without error (the handler answers 201), and so are a request with a negative
price and a request with empty name, price 0 and the zero user id. -/
theorem Create_persists_unvalidated_request :
    service.Create ⟨[], 1, none⟩ ⟨[], 400, 7, str "07-2025", none⟩
      = (.ok ⟨1, [], 400, 7, time.Date 2025 7 1 0 0 0 0 time.UTC, none⟩,
         ⟨[⟨1, [], 400, 7, time.Date 2025 7 1 0 0 0 0 time.UTC, none⟩], 2, none⟩) ∧
    (handler.Create ⟨[], 1, none⟩ (.ok ⟨[], 400, 7, str "07-2025", none⟩)).1.status = 201 ∧
    (service.Create ⟨[], 1, none⟩ ⟨str "Yandex Plus", -5, 7, str "07-2025", none⟩).2.rows
      = [⟨1, str "Yandex Plus", -5, 7, time.Date 2025 7 1 0 0 0 0 time.UTC, none⟩] ∧
    (service.Create ⟨[], 1, none⟩ ⟨[], 0, 0, str "07-2025", none⟩).2.rows
      = [⟨1, [], 0, 0, time.Date 2025 7 1 0 0 0 0 time.UTC, none⟩] := by
  refine ⟨by rfl, by rfl, by rfl, by rfl⟩

theorem firstDay_accessors (s : GoString) (h : Spec.isMonthYear s = true) :
    (Spec.firstDay s).Year = Spec.yearOf s ∧ (Spec.firstDay s).Month = Spec.monthOf s ∧
    (Spec.firstDay s).Day = 1 ∧
    (Spec.firstDay s).Hour = 0 ∧ (Spec.firstDay s).Minute = 0 ∧ (Spec.firstDay s).Second = 0 ∧
    (Spec.firstDay s).Nanosecond = 0 ∧ (Spec.firstDay s).loc = time.UTC := by
  have hb := isMonthYear_bounds s h
  have hI := time.daysIn_le_31 (Spec.yearOf s) (Spec.monthOf s) hb.1 hb.2.1
  exact time.Date_accessors (Spec.yearOf s) (Spec.monthOf s) 1 (by omega) (by omega)
    hb.1 hb.2.1 (by omega) (by omega)

/-- C7, amended: for a create request whose start date is valid and whose end
date is absent or valid, on a store that accepts the insert, `Create` returns
the subscription with the request's service name, price and user, the first day
of the start month at 00:00:00 UTC as start date, no end date exactly when the
request has none (otherwise the first day of the end month), and the id the
store assigned; the store holds that row. -/
theorem Create_returns_entity (rows : List model.Subscription) (nextID : Int)
    (req : model.SubscriptionCreateRequest)
    (hs : Spec.isMonthYear req.StartDate = true)
    (he : ∀ e, req.EndDate = some e → Spec.isMonthYear e = true) :
    service.Create ⟨rows, nextID, none⟩ req
      = (.ok ⟨nextID, req.ServiceName, req.Price, req.UserID, Spec.firstDay req.StartDate,
              req.EndDate.map Spec.firstDay⟩,
         ⟨rows ++ [⟨nextID, req.ServiceName, req.Price, req.UserID, Spec.firstDay req.StartDate,
              req.EndDate.map Spec.firstDay⟩], nextID + 1, none⟩) ∧
    (Spec.firstDay req.StartDate).Year = Spec.yearOf req.StartDate ∧
    (Spec.firstDay req.StartDate).Month = Spec.monthOf req.StartDate ∧
    (Spec.firstDay req.StartDate).Day = 1 ∧
    (Spec.firstDay req.StartDate).Hour = 0 ∧ (Spec.firstDay req.StartDate).Minute = 0 ∧
    (Spec.firstDay req.StartDate).Second = 0 ∧ (Spec.firstDay req.StartDate).Nanosecond = 0 ∧
    (Spec.firstDay req.StartDate).loc = time.UTC ∧
    (req.EndDate.map Spec.firstDay = none ↔ req.EndDate = none) ∧
    Spec.firstDay (str "07-2025") = ⟨1751328000, 0, time.UTC⟩ := by
  refine ⟨?_, firstDay_accessors _ hs |>.1, firstDay_accessors _ hs |>.2.1,
    firstDay_accessors _ hs |>.2.2.1, firstDay_accessors _ hs |>.2.2.2.1,
    firstDay_accessors _ hs |>.2.2.2.2.1, firstDay_accessors _ hs |>.2.2.2.2.2.1,
    firstDay_accessors _ hs |>.2.2.2.2.2.2.1, firstDay_accessors _ hs |>.2.2.2.2.2.2.2,
    by simp, by rfl⟩
  unfold service.Create
  rw [parseMonthYear_ok _ hs]
  cases hE : req.EndDate with
  | none => rfl
  | some e =>
    dsimp only
    rw [parseMonthYear_ok e (he e hE)]
    rfl

/-- Witness of C7: the request for "Yandex Plus", 400, start 07-2025, no end date. -/
theorem Create_returns_entity_witness :
    service.Create ⟨[], 1, none⟩ ⟨str "Yandex Plus", 400, 7, str "07-2025", none⟩
      = (.ok ⟨1, str "Yandex Plus", 400, 7, Spec.firstDay (str "07-2025"), none⟩,
         ⟨[] ++ [⟨1, str "Yandex Plus", 400, 7, Spec.firstDay (str "07-2025"), none⟩],
           1 + 1, none⟩) :=
  (Create_returns_entity [] 1 ⟨str "Yandex Plus", 400, 7, str "07-2025", none⟩ (by decide)
    (by intro e h; cases h)).1

/-- C7 as stated fails: a request with the valid start date 07-2025 and the end
date 13-2025, on a store that accepts every insert, gets an error and no
subscription. -/
theorem Create_invalid_end_date_counterexample :
    ¬ (∀ (db : sql.DB) (req : model.SubscriptionCreateRequest),
        db.fault = none → Spec.isMonthYear req.StartDate = true →
        ∃ sub, (service.Create db req).1 = .ok sub) := by
  intro h
  obtain ⟨sub, hsub⟩ := h ⟨[], 1, none⟩
    ⟨str "Yandex Plus", 400, 7, str "07-2025", some (str "13-2025")⟩ rfl (by decide)
  have herr : ∃ e, (service.Create ⟨[], 1, none⟩
      ⟨str "Yandex Plus", 400, 7, str "07-2025", some (str "13-2025")⟩).1 = .error e := by
    obtain ⟨e, he⟩ := parseMonthYear_error (str "13-2025") (by decide)
    refine ⟨.errorfErr "invalid end date: %v" e, ?_⟩
    unfold service.Create
    rw [parseMonthYear_ok (str "07-2025") (by decide)]
    dsimp only
    rw [he]
  obtain ⟨e, he⟩ := herr
  rw [he] at hsub
  cases hsub

/-! ## Update (C8, C9) -/

theorem find_of_exists (rows : List model.Subscription) (id : Int)
    (hex : ∃ r ∈ rows, r.ID = id) :
    ∃ old, rows.find? (fun r => r.ID == id) = some old ∧ old.ID = id := by
  induction rows with
  | nil => obtain ⟨r, hr, _⟩ := hex; cases hr
  | cons x xs ih =>
    by_cases hx : x.ID = id
    · exact ⟨x, by simp [List.find?, hx], hx⟩
    · obtain ⟨r, hr, hid⟩ := hex
      have hr2 : r ∈ xs := by
        rcases List.mem_cons.1 hr with h | h
        · exact absurd (h ▸ hid) hx
        · exact h
      obtain ⟨old, ho, hoid⟩ := ih ⟨r, hr2, hid⟩
      have hb : (x.ID == id) = false := by simpa using hx
      exact ⟨old, by rw [List.find?, hb]; exact ho, hoid⟩

theorem find_none_of_absent (rows : List model.Subscription) (id : Int)
    (h : ∀ r ∈ rows, r.ID ≠ id) : rows.find? (fun r => r.ID == id) = none := by
  rw [List.find?_eq_none]
  intro r hr
  simpa using h r hr

theorem filter_length_pos (rows : List model.Subscription) (id : Int)
    (hex : ∃ r ∈ rows, r.ID = id) :
    ((rows.filter (fun r => r.ID == id)).length : Int) ≠ 0 := by
  obtain ⟨r, hr, hid⟩ := hex
  have : r ∈ rows.filter (fun r => r.ID == id) := by
    rw [List.mem_filter]; exact ⟨hr, by simpa using hid⟩
  have hpos := List.length_pos_of_mem this
  omega

theorem find_map_replace (rows : List model.Subscription) (new : model.Subscription)
    (hex : ∃ r ∈ rows, r.ID = new.ID) :
    (rows.map (fun r => if (r.ID == new.ID) = true then new else r)).find?
      (fun r => r.ID == new.ID) = some new := by
  induction rows with
  | nil => obtain ⟨r, hr, _⟩ := hex; cases hr
  | cons x xs ih =>
    by_cases hx : x.ID = new.ID
    · have hb : (x.ID == new.ID) = true := by simpa using hx
      rw [List.map_cons, hb, if_pos rfl, List.find?]
      simp
    · obtain ⟨r, hr, hid⟩ := hex
      have hr2 : r ∈ xs := by
        rcases List.mem_cons.1 hr with h | h
        · exact absurd (h ▸ hid) hx
        · exact h
      have hb : (x.ID == new.ID) = false := by simpa using hx
      rw [List.map_cons, hb, if_neg (by simp), List.find?, hb]
      exact ih ⟨r, hr2, hid⟩

/-- C8: for an id present in the store and an update request with valid dates,
`Update` returns and stores the entity with the same id whose service name,
price, user, start date and end date are those of the request; nothing of the
previous row but the id remains, and a request without end date clears the
stored one. -/
theorem Update_full_replace (rows : List model.Subscription) (nextID id : Int)
    (req : model.SubscriptionCreateRequest)
    (hex : ∃ r ∈ rows, r.ID = id)
    (hs : Spec.isMonthYear req.StartDate = true)
    (he : ∀ e, req.EndDate = some e → Spec.isMonthYear e = true) :
    service.Update ⟨rows, nextID, none⟩ id req
      = (.ok ⟨id, req.ServiceName, req.Price, req.UserID, Spec.firstDay req.StartDate,
              req.EndDate.map Spec.firstDay⟩,
         ⟨rows.map (fun r => if r.ID == id then
              ⟨id, req.ServiceName, req.Price, req.UserID, Spec.firstDay req.StartDate,
                req.EndDate.map Spec.firstDay⟩ else r), nextID, none⟩) ∧
    service.GetByID (service.Update ⟨rows, nextID, none⟩ id req).2 id
      = .ok ⟨id, req.ServiceName, req.Price, req.UserID, Spec.firstDay req.StartDate,
              req.EndDate.map Spec.firstDay⟩ ∧
    (req.EndDate = none →
      ∃ sub, service.GetByID (service.Update ⟨rows, nextID, none⟩ id req).2 id = .ok sub ∧
        sub.EndDate = none) := by
  obtain ⟨old, hfind, hid⟩ := find_of_exists rows id hex
  have hlen := filter_length_pos rows id hex
  have hU : service.Update ⟨rows, nextID, none⟩ id req
      = (.ok ⟨id, req.ServiceName, req.Price, req.UserID, Spec.firstDay req.StartDate,
              req.EndDate.map Spec.firstDay⟩,
         ⟨rows.map (fun r => if r.ID == id then
              ⟨id, req.ServiceName, req.Price, req.UserID, Spec.firstDay req.StartDate,
                req.EndDate.map Spec.firstDay⟩ else r), nextID, none⟩) := by
    unfold service.Update repository.GetByID sql.queryRowByID
    dsimp only
    rw [hfind]
    dsimp only
    rw [parseMonthYear_ok _ hs]
    cases hE : req.EndDate with
    | none =>
      dsimp only
      unfold repository.Update sql.execUpdate
      dsimp only
      rw [hid, if_neg hlen]
      rfl
    | some e =>
      dsimp only
      rw [parseMonthYear_ok e (he e hE)]
      dsimp only
      unfold repository.Update sql.execUpdate
      dsimp only
      rw [hid, if_neg hlen]
      rfl
  have hG : service.GetByID (service.Update ⟨rows, nextID, none⟩ id req).2 id
      = .ok ⟨id, req.ServiceName, req.Price, req.UserID, Spec.firstDay req.StartDate,
              req.EndDate.map Spec.firstDay⟩ := by
    rw [hU]
    unfold service.GetByID repository.GetByID sql.queryRowByID
    dsimp only
    have := find_map_replace rows ⟨id, req.ServiceName, req.Price, req.UserID,
      Spec.firstDay req.StartDate, req.EndDate.map Spec.firstDay⟩ hex
    dsimp only at this
    rw [this]
  refine ⟨hU, hG, ?_⟩
  intro hnone
  exact ⟨_, hG, by simp [hnone]⟩

/-- Witness of C8: the row 1 with an end date is updated by a request without one. -/
theorem Update_full_replace_witness :
    ∃ sub, service.GetByID (service.Update
        ⟨[⟨1, str "Yandex Plus", 400, 7, time.Date 2025 7 1 0 0 0 0 time.UTC,
            some (time.Date 2025 9 1 0 0 0 0 time.UTC)⟩], 2, none⟩ 1
        ⟨str "Netflix", 300, 8, str "01-2026", none⟩).2 1 = .ok sub ∧ sub.EndDate = none :=
  (Update_full_replace
    [⟨1, str "Yandex Plus", 400, 7, time.Date 2025 7 1 0 0 0 0 time.UTC,
      some (time.Date 2025 9 1 0 0 0 0 time.UTC)⟩] 2 1
    ⟨str "Netflix", 300, 8, str "01-2026", none⟩
    ⟨_, List.mem_singleton.2 rfl, rfl⟩ (by decide) (by intro e h; cases h)).2.2 rfl

/-- C9: for an id that no row of the store has and any update request, `Update`
fails with the not-found error of the lookup and the store is left as it was:
no row is created and none is modified. -/
theorem Update_missing_id (db : sql.DB) (id : Int) (req : model.SubscriptionCreateRequest)
    (h : ∀ r ∈ db.rows, r.ID ≠ id) :
    (∃ e, service.Update db id req
      = (.error (.errorfErr "subscription not found: %v" e), db)) ∧
    (db.fault = none → service.Update db id req
      = (.error (.errorfErr "subscription not found: %v"
          (.errorfInt "subscription with ID %d not found" id)), db)) := by
  have hnone := find_none_of_absent db.rows id h
  cases hf : db.fault with
  | some msg =>
    refine ⟨⟨.errorfErr "failed to get subscription: %v" (.driverError msg), ?_⟩, by intro h; cases h⟩
    unfold service.Update repository.GetByID sql.queryRowByID
    rw [hf]
    rfl
  | none =>
    have : service.Update db id req
        = (.error (.errorfErr "subscription not found: %v"
            (.errorfInt "subscription with ID %d not found" id)), db) := by
      unfold service.Update repository.GetByID sql.queryRowByID
      rw [hf]
      dsimp only
      rw [hnone]
      rfl
    exact ⟨⟨_, this⟩, fun _ => this⟩

/-- Witness of C9: id 5 on a store that holds only id 1. -/
theorem Update_missing_id_witness :
    service.Update ⟨[⟨1, str "Yandex Plus", 400, 7, time.Date 2025 7 1 0 0 0 0 time.UTC, none⟩],
        2, none⟩ 5 ⟨str "Netflix", 300, 8, str "01-2026", none⟩
      = (.error (.errorfErr "subscription not found: %v"
          (.errorfInt "subscription with ID %d not found" 5)),
         ⟨[⟨1, str "Yandex Plus", 400, 7, time.Date 2025 7 1 0 0 0 0 time.UTC, none⟩], 2, none⟩) :=
  (Update_missing_id
    ⟨[⟨1, str "Yandex Plus", 400, 7, time.Date 2025 7 1 0 0 0 0 time.UTC, none⟩], 2, none⟩ 5
    ⟨str "Netflix", 300, 8, str "01-2026", none⟩ (by decide)).2 rfl

/-! ## HTTP status of failed requests (C10) -/

/-- C10, amended: the status of a failed request is fixed per handler, whatever
the kind of the service failure. Undecodable bodies and unparsable ids get 400;
a failure of the service gets 400 in `Create` and `GetTotalCost`, 404 in
`GetByID` and `Delete`, 500 in `List`; in `Update` a failure of the service
other than the failed lookup of the id (a date-format failure, a failure of
the write) gets 400. -/
theorem handler_failure_status (db : sql.DB) :
    (∀ err, (handler.Create db (.error err)).1.status = 400) ∧
    (∀ req err, (service.Create db req).1 = .error err →
      (handler.Create db (.ok req)).1.status = 400) ∧
    (∀ idVar err, strconv.Atoi idVar = .error err →
      (handler.GetByID db idVar).status = 400) ∧
    (∀ idVar id err, strconv.Atoi idVar = .ok id → service.GetByID db (u32 id) = .error err →
      (handler.GetByID db idVar).status = 404) ∧
    (∀ idVar decoded err, strconv.Atoi idVar = .error err →
      (handler.Update db idVar decoded).1.status = 400) ∧
    (∀ idVar id err, strconv.Atoi idVar = .ok id →
      (handler.Update db idVar (.error err)).1.status = 400) ∧
    (∀ idVar id req err, strconv.Atoi idVar = .ok id →
      (service.Update db (u32 id) req).1 = .error err →
      (∀ cause, err ≠ .errorfErr "subscription not found: %v" cause) →
      (handler.Update db idVar (.ok req)).1.status = 400) ∧
    (∀ idVar err, strconv.Atoi idVar = .error err →
      (handler.Delete db idVar).1.status = 400) ∧
    (∀ idVar id err, strconv.Atoi idVar = .ok id → (service.Delete db (u32 id)).1 = some err →
      (handler.Delete db idVar).1.status = 404) ∧
    (∀ limitStr offsetStr err,
      service.List db (handler.listParams limitStr offsetStr).1
        (handler.listParams limitStr offsetStr).2 = .error err →
      (handler.List db limitStr offsetStr).status = 500) ∧
    (∀ err, (handler.GetTotalCost db (.error err)).status = 400) ∧
    (∀ req err, service.CalculateTotalCost db req = .error err →
      (handler.GetTotalCost db (.ok req)).status = 400) := by
  refine ⟨?_, ?_, ?_, ?_, ?_, ?_, ?_, ?_, ?_, ?_, ?_, ?_⟩
  · intro err; rfl
  · intro req err h
    unfold handler.Create
    dsimp only
    split
    · rfl
    · rename_i heq; rw [heq] at h; cases h
  · intro idVar err h
    unfold handler.GetByID
    rw [h]
    rfl
  · intro idVar id err h1 h2
    unfold handler.GetByID
    rw [h1]
    dsimp only
    rw [h2]
    rfl
  · intro idVar decoded err h
    unfold handler.Update
    rw [h]
    rfl
  · intro idVar id err h
    unfold handler.Update
    rw [h]
    rfl
  · intro idVar id req err h1 h2 _
    unfold handler.Update
    rw [h1]
    dsimp only
    split
    · rfl
    · rename_i heq; rw [heq] at h2; cases h2
  · intro idVar err h
    unfold handler.Delete
    rw [h]
    rfl
  · intro idVar id err h1 h2
    unfold handler.Delete
    rw [h1]
    dsimp only
    split
    · rfl
    · rename_i heq; rw [heq] at h2; cases h2
  · intro limitStr offsetStr err h
    unfold handler.List
    dsimp only
    rw [h]
    rfl
  · intro err; rfl
  · intro req err h
    unfold handler.GetTotalCost
    dsimp only
    rw [h]
    rfl

/-- C10 as stated fails: with the store down (a failure that is no missing row)
`GET /subscriptions/1` answers 404, not 500. -/
theorem GetByID_store_failure_counterexample :
    (handler.GetByID ⟨[], 1, some "connection refused"⟩ (str "1")).status = 404 ∧
    (handler.GetByID ⟨[], 1, some "connection refused"⟩ (str "1")).body
      = .errorText (.errorfErr "failed to get subscription: %v"
          (.errorfErr "failed to get subscription: %v" (.driverError "connection refused"))) ∧
    (handler.GetByID ⟨[], 1, some "connection refused"⟩ (str "1")).status ≠ 500 := by
  refine ⟨by rfl, by rfl, by decide⟩

/-- Witness of C10: `GET /subscriptions/5` on a store without row 5 answers 404,
the status `GetByID` gives to every failure of the service. -/
theorem handler_failure_status_witness :
    (handler.GetByID ⟨[], 1, none⟩ (str "5")).status = 404 :=
  (handler_failure_status ⟨[], 1, none⟩).2.2.2.1 (str "5") 5
    (.errorfErr "failed to get subscription: %v"
      (.errorfInt "subscription with ID %d not found" 5)) (by rfl) (by rfl)

/-- The status of `PUT /subscriptions/5` when no row has id 5. -/
theorem Update_missing_id_status :
    (handler.Update ⟨[], 1, none⟩ (str "5")
      (.ok ⟨str "Netflix", 300, 8, str "01-2026", none⟩)).1.status = 400 := by
  rfl

/-! ## Paging parameters of List (C11) -/

theorem Atoi_nil : strconv.Atoi [] = .error (.syntaxError "Atoi" []) := by rfl

theorem i32_of_range (x : Int) (h0 : -2147483648 ≤ x) (h1 : x ≤ 2147483647) : i32 x = x := by
  unfold i32; omega

theorem listParams_limit (limitStr offsetStr : GoString) :
    (limitStr = [] → (handler.listParams limitStr offsetStr).1 = 10) ∧
    (∀ e, strconv.Atoi limitStr = .error e → (handler.listParams limitStr offsetStr).1 = 10) ∧
    (∀ l, strconv.Atoi limitStr = .ok l → (handler.listParams limitStr offsetStr).1 = i32 l) := by
  refine ⟨?_, ?_, ?_⟩
  · intro h; subst h; rfl
  · intro e h
    unfold handler.listParams
    dsimp only
    rw [h]
    split <;> rfl
  · intro l h
    have hne : limitStr ≠ [] := by
      intro h0; rw [h0, Atoi_nil] at h; cases h
    unfold handler.listParams
    dsimp only
    rw [h, if_pos hne]

theorem listParams_offset (limitStr offsetStr : GoString) :
    (offsetStr = [] → (handler.listParams limitStr offsetStr).2 = 0) ∧
    (∀ e, strconv.Atoi offsetStr = .error e → (handler.listParams limitStr offsetStr).2 = 0) ∧
    (∀ o, strconv.Atoi offsetStr = .ok o → (handler.listParams limitStr offsetStr).2 = i32 o) := by
  refine ⟨?_, ?_, ?_⟩
  · intro h; subst h; rfl
  · intro e h
    unfold handler.listParams
    dsimp only
    rw [h]
    split <;> rfl
  · intro o h
    have hne : offsetStr ≠ [] := by
      intro h0; rw [h0, Atoi_nil] at h; cases h
    unfold handler.listParams
    dsimp only
    rw [h, if_pos hne]

theorem handler_List_eq (db : sql.DB) (limitStr offsetStr : GoString) :
    (∀ err, service.List db (handler.listParams limitStr offsetStr).1
        (handler.listParams limitStr offsetStr).2 = .error err →
      handler.List db limitStr offsetStr = ⟨500, .errorText err⟩) ∧
    (∀ subs, service.List db (handler.listParams limitStr offsetStr).1
        (handler.listParams limitStr offsetStr).2 = .ok subs →
      handler.List db limitStr offsetStr = ⟨200, .subscriptions subs⟩) := by
  constructor
  · intro err h
    unfold handler.List
    dsimp only
    rw [h]
    rfl
  · intro subs h
    unfold handler.List
    dsimp only
    rw [h]
    rfl

theorem handler_List_congr (db : sql.DB) (l1 o1 l2 o2 : GoString)
    (h : handler.listParams l1 o1 = handler.listParams l2 o2) :
    handler.List db l1 o1 = handler.List db l2 o2 := by
  unfold handler.List
  rw [h]

/-- C11, amended: the limit passed to the service is 10 when the `limit`
parameter is absent, empty or not parsable as an integer, and otherwise the
supplied integer converted to `int32` (the integer itself when it lies in
-2^31 .. 2^31-1); the offset likewise with default 0; a malformed parameter
gives the response that the absent parameter gives, and on a store that is up
two malformed parameters are answered 200. -/
theorem List_params (db : sql.DB) (limitStr offsetStr : GoString) :
    -- the pair `listParams` is what the service is called with
    (∀ err, service.List db (handler.listParams limitStr offsetStr).1
        (handler.listParams limitStr offsetStr).2 = .error err →
      handler.List db limitStr offsetStr = ⟨500, .errorText err⟩) ∧
    (∀ subs, service.List db (handler.listParams limitStr offsetStr).1
        (handler.listParams limitStr offsetStr).2 = .ok subs →
      handler.List db limitStr offsetStr = ⟨200, .subscriptions subs⟩) ∧
    -- limit
    (limitStr = [] → (handler.listParams limitStr offsetStr).1 = 10) ∧
    (∀ e, strconv.Atoi limitStr = .error e → (handler.listParams limitStr offsetStr).1 = 10) ∧
    (∀ l, strconv.Atoi limitStr = .ok l → (handler.listParams limitStr offsetStr).1 = i32 l) ∧
    (∀ l, strconv.Atoi limitStr = .ok l → -2147483648 ≤ l → l ≤ 2147483647 →
      (handler.listParams limitStr offsetStr).1 = l) ∧
    -- offset
    (offsetStr = [] → (handler.listParams limitStr offsetStr).2 = 0) ∧
    (∀ e, strconv.Atoi offsetStr = .error e → (handler.listParams limitStr offsetStr).2 = 0) ∧
    (∀ o, strconv.Atoi offsetStr = .ok o → (handler.listParams limitStr offsetStr).2 = i32 o) ∧
    (∀ o, strconv.Atoi offsetStr = .ok o → -2147483648 ≤ o → o ≤ 2147483647 →
      (handler.listParams limitStr offsetStr).2 = o) ∧
    -- a malformed parameter is treated as an absent one
    (∀ e, strconv.Atoi limitStr = .error e →
      handler.List db limitStr offsetStr = handler.List db [] offsetStr) ∧
    (∀ e, strconv.Atoi offsetStr = .error e →
      handler.List db limitStr offsetStr = handler.List db limitStr []) ∧
    (∀ e1 e2, strconv.Atoi limitStr = .error e1 → strconv.Atoi offsetStr = .error e2 →
      db.fault = none → (handler.List db limitStr offsetStr).status = 200) := by
  have hL := listParams_limit limitStr offsetStr
  have hO := listParams_offset limitStr offsetStr
  have hE := handler_List_eq db limitStr offsetStr
  refine ⟨hE.1, hE.2, hL.1, hL.2.1, hL.2.2, ?_, hO.1, hO.2.1, hO.2.2, ?_, ?_, ?_, ?_⟩
  · intro l h h0 h1
    rw [hL.2.2 l h, i32_of_range l h0 h1]
  · intro o h h0 h1
    rw [hO.2.2 o h, i32_of_range o h0 h1]
  · intro e h
    apply handler_List_congr
    apply Prod.ext
    · rw [hL.2.1 e h, (listParams_limit [] offsetStr).1 rfl]
    · rfl
  · intro e h
    apply handler_List_congr
    apply Prod.ext
    · rfl
    · rw [hO.2.1 e h, (listParams_offset limitStr []).1 rfl]
  · intro e1 e2 h1 h2 hf
    have hp : handler.listParams limitStr offsetStr = (10, 0) :=
      Prod.ext (hL.2.1 e1 h1) (hO.2.1 e2 h2)
    unfold handler.List
    rw [hp]
    unfold service.List repository.List sql.queryPage
    rw [hf]
    rfl

/-- Witness of C11: `limit=abc` and `offset=5` are passed on as 10 and 5. -/
theorem List_params_witness :
    (handler.listParams (str "abc") (str "5")).1 = 10 ∧
    (handler.listParams (str "abc") (str "5")).2 = 5 :=
  ⟨(List_params ⟨[], 1, none⟩ (str "abc") (str "5")).2.2.2.1
      (.syntaxError "Atoi" (str "abc")) (by rfl),
   (List_params ⟨[], 1, none⟩ (str "abc") (str "5")).2.2.2.2.2.2.2.2.2.1 5 (by rfl)
      (by decide) (by decide)⟩

/-- C11 as stated fails: `limit=4294967306` is a parsable integer, and the limit
passed to the service is 10; `offset=2147483648` is passed as -2147483648. -/
theorem List_params_truncation_counterexample :
    strconv.Atoi (str "4294967306") = .ok 4294967306 ∧
    (handler.listParams (str "4294967306") []).1 = 10 ∧
    (handler.listParams (str "4294967306") []).1 ≠ 4294967306 ∧
    strconv.Atoi (str "2147483648") = .ok 2147483648 ∧
    (handler.listParams [] (str "2147483648")).2 = -2147483648 ∧
    (handler.listParams [] (str "2147483648")).2 ≠ 2147483648 := by
  refine ⟨by rfl, by rfl, by decide, by rfl, by rfl, by decide⟩

/-! ## Text and placeholders of the total-cost statement (C12) -/

/-- C12: for each of the four combinations of present and absent filters, the
text the repository builds is the base overlap predicate on `$1` (bound to the
end of the period) and `$2` (bound to its start), followed by one equality per
supplied filter, user first, joined with `AND`; the placeholders are `$1..$n`
in order without gap or repeat, `n` is the number of arguments, and the k-th
argument is the value for `$k` (the service name on `$3` without user filter,
on `$4` with it). -/
theorem totalCostStatement_placeholders (sp ep : time.Time) (u : UUID) (n : GoString) :
    -- no filter
    (repository.totalCostStatement sp ep none none
      = ⟨"SELECT COALESCE(SUM(price), 0) FROM subscriptions \n\t          " ++
          "WHERE start_date <= $1 AND (end_date IS NULL OR end_date >= $2)",
         [.time ep, .time sp]⟩) ∧
    -- user filter only
    (repository.totalCostStatement sp ep (some u) none
      = ⟨"SELECT COALESCE(SUM(price), 0) FROM subscriptions \n\t          " ++
          "WHERE start_date <= $1 AND (end_date IS NULL OR end_date >= $2)" ++
          " AND user_id = $3",
         [.time ep, .time sp, .uuid u]⟩) ∧
    -- service-name filter only
    (repository.totalCostStatement sp ep none (some n)
      = ⟨"SELECT COALESCE(SUM(price), 0) FROM subscriptions \n\t          " ++
          "WHERE start_date <= $1 AND (end_date IS NULL OR end_date >= $2)" ++
          " AND service_name = $3",
         [.time ep, .time sp, .text n]⟩) ∧
    -- both filters
    (repository.totalCostStatement sp ep (some u) (some n)
      = ⟨"SELECT COALESCE(SUM(price), 0) FROM subscriptions \n\t          " ++
          "WHERE start_date <= $1 AND (end_date IS NULL OR end_date >= $2)" ++
          " AND user_id = $3 AND service_name = $4",
         [.time ep, .time sp, .uuid u, .text n]⟩) ∧
    -- the conjuncts that the text denotes, and their placeholders
    (∀ fu fn,
      (repository.totalCostStatement sp ep fu fn).query
        = (repository.totalCostQuery sp ep fu fn).text ∧
      (repository.totalCostStatement sp ep fu fn).args
        = (repository.totalCostQuery sp ep fu fn).args ∧
      (repository.totalCostQuery sp ep fu fn).conds
        = [sql.Cond.startDateLE 1, sql.Cond.endDateNullOrGE 2] ++
          (match fu with
           | some _ => [sql.Cond.userIDEq 3]
           | none => []) ++
          (match fn with
           | some _ => [sql.Cond.serviceNameEq (if fu.isSome then 4 else 3)]
           | none => []) ∧
      (repository.totalCostQuery sp ep fu fn).conds.map sql.Cond.param
        = List.range' 1 (repository.totalCostStatement sp ep fu fn).args.length ∧
      sql.argAt (repository.totalCostStatement sp ep fu fn).args 1 = some (.time ep) ∧
      sql.argAt (repository.totalCostStatement sp ep fu fn).args 2 = some (.time sp) ∧
      (∀ x, fu = some x →
        sql.argAt (repository.totalCostStatement sp ep fu fn).args 3 = some (.uuid x)) ∧
      (∀ s, fn = some s →
        sql.argAt (repository.totalCostStatement sp ep fu fn).args (if fu.isSome then 4 else 3)
          = some (.text s))) := by
  refine ⟨by rfl, by rfl, by rfl, by rfl, ?_⟩
  intro fu fn
  cases fu <;> cases fn <;>
    refine ⟨by rfl, by rfl, by rfl, by rfl, by rfl, by rfl, ?_, ?_⟩ <;>
    intro x hx <;> cases hx <;> rfl

end EffectiveMobile
